import Mathlib

-- The core rational operations are `@[irreducible]`, which blocks
-- elaborator-side evaluation in `decide`; restore default reducibility
-- so concrete runs of the embedded pipeline evaluate.
unseal Rat.mul Rat.add Rat.sub Rat.inv

/-!
Verification development for the invoice-engine package of the
invoice-suite repository: a shallow embedding in Lean 4 of the
pure validation / computation / formatting pipeline
(`src/validate.ts`, `src/compute.ts`, `src/format.ts`, `src/index.ts`),
together with theorems settling the specification claims.

Modelling conventions:

* JavaScript numbers are modelled by `JsNum`: `NaN`, signed infinities,
  and finite values as exact rationals. Finite IEEE-754 arithmetic is
  idealised as exact rational arithmetic (no rounding); `NaN` and
  infinity propagation follow IEEE rules, which is what the claims
  about computation structure depend on.
* JavaScript runtime values reaching the validator are modelled by the
  inductive `Value` (`undefined`, `null`, booleans, numbers, strings,
  arrays, plain objects, and `Date` objects; a `Date` is modelled by
  its UTC calendar day, `none` for an Invalid Date).
* `String.prototype.trim`, `toUpperCase` (ASCII case mapping) and
  `parseFloat` are modelled character-by-character after their
  ECMAScript definitions (`parseFloat` takes the longest numeric
  prefix, so trailing garbage is ignored).
* Side effects: the TypeScript validators push issues onto a shared
  array. Each embedded validator instead returns the list of issues it
  pushes, and callers append the lists in call order, which preserves
  the push order exactly.
-/

/-- ECMAScript `WhiteSpace`/`LineTerminator` characters (the common set:
space, tab, line feed, carriage return, vertical tab, form feed,
no-break space, BOM). Used by `trim` and by `parseFloat` prefix skip. -/
def isJsWhitespace (c : Char) : Bool :=
  c = ' ' || c = '\t' || c = '\n' || c = '\r' ||
  c = '\x0b' || c = '\x0c' || c = '\u00A0' || c = '\uFEFF'

/-- Model of `String.prototype.trim`: strip leading and trailing
whitespace. -/
def jsTrim (s : String) : String :=
  ⟨List.rdropWhile isJsWhitespace (s.data.dropWhile isJsWhitespace)⟩

/-- Model of `String.prototype.toUpperCase` restricted to ASCII case
mapping (the currency codes it is applied to are ASCII). -/
def jsToUpper (s : String) : String :=
  ⟨s.data.map Char.toUpper⟩

/-- A JavaScript number: `NaN`, an infinity (`true` = positive), or a
finite value idealised as an exact rational. -/
inductive JsNum where
  | nan : JsNum
  | inf (pos : Bool) : JsNum
  | fin (q : ℚ) : JsNum
deriving DecidableEq, Repr

namespace JsNum

/-- `Number.isNaN`. -/
def isNaN : JsNum → Bool
  | nan => true
  | _ => false

/-- JavaScript `<` against a finite rational constant. `NaN` compares
false; `+∞ < c` is false; `-∞ < c` is true. -/
def ltQ : JsNum → ℚ → Bool
  | nan, _ => false
  | inf pos, _ => !pos
  | fin q, c => q < c

/-- JavaScript `>` against a finite rational constant. -/
def gtQ : JsNum → ℚ → Bool
  | nan, _ => false
  | inf pos, _ => pos
  | fin q, c => c < q

/-- JavaScript `===` against a finite rational constant. -/
def eqQ : JsNum → ℚ → Bool
  | fin q, c => q = c
  | _, _ => false

/-- IEEE-style addition on the idealised numbers. -/
def add : JsNum → JsNum → JsNum
  | nan, _ => nan
  | _, nan => nan
  | inf a, inf b => if a = b then inf a else nan
  | inf a, fin _ => inf a
  | fin _, inf b => inf b
  | fin p, fin q => fin (p + q)

/-- IEEE-style multiplication on the idealised numbers
(`±∞ × 0 = NaN`, otherwise infinities keep the product's sign). -/
def mul : JsNum → JsNum → JsNum
  | nan, _ => nan
  | _, nan => nan
  | inf a, inf b => inf (a = b)
  | inf a, fin q => if q = 0 then nan else inf (a = decide (0 < q))
  | fin q, inf b => if q = 0 then nan else inf (b = decide (0 < q))
  | fin p, fin q => fin (p * q)

end JsNum

/-- A JavaScript runtime value as seen by the validator. A `Date`
object is modelled by its UTC calendar day (`none` = Invalid Date). -/
inductive Value where
  | vUndefined : Value
  | vNull : Value
  | vBool (b : Bool) : Value
  | vNum (n : JsNum) : Value
  | vStr (s : String) : Value
  | vArr (xs : List Value) : Value
  | vObj (fields : List (String × Value)) : Value
  | vDate (day : Option (ℕ × ℕ × ℕ)) : Value

/-- JavaScript property access `obj[field]` on a plain object: the
value stored under the first matching key, `undefined` otherwise. -/
def getField (fields : List (String × Value)) (key : String) : Value :=
  match fields.lookup key with
  | some v => v
  | none => Value.vUndefined

/-- Digits of a numeric literal read left to right. -/
def digitsToNat (ds : List Char) : ℕ :=
  ds.foldl (fun acc c => 10 * acc + (c.toNat - '0'.toNat)) 0

/-- `10 ^ e` as a rational, for an integer exponent. -/
def pow10 : ℤ → ℚ
  | Int.ofNat n => (10 : ℚ) ^ n
  | Int.negSucc n => 1 / (10 : ℚ) ^ (n + 1)

/-- The optional exponent part of a `StrDecimalLiteral`: consumed only
when `e`/`E` is followed by an optionally signed nonempty digit run. -/
def parseExponent (l : List Char) : ℤ :=
  match l with
  | c :: rest =>
    if c = 'e' ∨ c = 'E' then
      let (esign, r2) :=
        match rest with
        | '+' :: r => ((1 : ℤ), r)
        | '-' :: r => ((-1 : ℤ), r)
        | r => ((1 : ℤ), r)
      let edigits := r2.takeWhile Char.isDigit
      if edigits = [] then 0 else esign * (digitsToNat edigits : ℤ)
    else 0
  | [] => 0

/-- Model of ECMAScript `parseFloat`: skip leading whitespace, then
take the longest prefix that is a `StrDecimalLiteral`
(`[+-]? (Infinity | digits [. digits?] | . digits) exponent?`) and
return its value; `NaN` when no such prefix exists. Trailing
non-numeric characters are ignored. -/
def jsParseFloat (s : String) : JsNum :=
  let l := s.data.dropWhile isJsWhitespace
  let (sign, l1) :=
    match l with
    | '+' :: r => (true, r)
    | '-' :: r => (false, r)
    | r => (true, r)
  if l1.take 8 = "Infinity".data then
    JsNum.inf sign
  else
    let intDigits := l1.takeWhile Char.isDigit
    let afterInt := l1.dropWhile Char.isDigit
    let (hasDot, fracDigits, afterFrac) :=
      match afterInt with
      | '.' :: rest => (true, rest.takeWhile Char.isDigit, rest.dropWhile Char.isDigit)
      | rest => (false, [], rest)
    if intDigits = [] ∧ (¬ hasDot ∨ fracDigits = []) then
      JsNum.nan
    else
      let mantissa : ℚ :=
        (digitsToNat intDigits : ℚ) +
          (digitsToNat fracDigits : ℚ) / (10 : ℚ) ^ fracDigits.length
      let e := parseExponent afterFrac
      let magnitude := mantissa * pow10 e
      JsNum.fin (if sign then magnitude else -magnitude)

/-- Digits of a natural number, most significant first, by structural
recursion on a fuel argument (`fuel > log10 n` suffices). -/
def natDecimalAux (fuel n : ℕ) : List Char :=
  match fuel with
  | 0 => []
  | fuel + 1 =>
    if n < 10 then [Char.ofNat ('0'.toNat + n)]
    else natDecimalAux fuel (n / 10) ++ [Char.ofNat ('0'.toNat + n % 10)]

/-- Decimal rendering of a natural number (agrees with `Nat.repr`). -/
def natDecimal (n : ℕ) : String :=
  ⟨natDecimalAux (n + 1) n⟩

/-- Model of `Number.prototype.toFixed(0)`: round to the nearest
integer, ties to the larger magnitude, sign rendered separately. -/
def jsToFixed0 (n : JsNum) : String :=
  match n with
  | JsNum.nan => "NaN"
  | JsNum.inf pos => if pos then "Infinity" else "-Infinity"
  | JsNum.fin q =>
    if q < 0 then "-" ++ natDecimal (Int.toNat ⌊-q + 1/2⌋)
    else natDecimal (Int.toNat ⌊q + 1/2⌋)

/-- Machine-readable issue codes (`IssueCode` in `types.ts`). -/
inductive IssueCode where
  | MISSING_REQUIRED
  | INVALID_TYPE
  | INVALID_FORMAT
  | INVALID_VALUE
  | INVALID_DATE
  | DATE_ORDER
  | EMPTY_ARRAY
  | NEGATIVE_NUMBER
  | UNKNOWN
deriving DecidableEq, Repr

/-- A single validation issue (`Issue` in `types.ts`). -/
structure Issue where
  code : IssueCode
  path : String
  message : String
  hint : Option String
deriving DecidableEq, Repr

/-- The `issue` builder of `validate.ts` (no hint). -/
def mkIssue (code : IssueCode) (path message : String) : Issue :=
  { code := code, path := path, message := message, hint := none }

/-- The `issue` builder of `validate.ts` (with hint). -/
def mkIssueHint (code : IssueCode) (path message hint : String) : Issue :=
  { code := code, path := path, message := message, hint := some hint }

/-- `Business` domain record (optional fields absent by omission). -/
structure Business where
  name : String
  address : String
  email : String
  phone : Option String
  logoUrl : Option String
  taxId : Option String
deriving DecidableEq, Repr

/-- `Client` domain record. -/
structure Client where
  name : String
  address : String
  email : Option String
deriving DecidableEq, Repr

/-- `InvoiceHeader` domain record. -/
structure InvoiceHeader where
  invoiceNumber : String
  issueDate : String
  dueDate : Option String
  currency : String
  taxRate : Option JsNum
  notes : Option String
deriving DecidableEq, Repr

/-- `LineItem` domain record. -/
structure LineItem where
  description : String
  quantity : JsNum
  unitPrice : JsNum
  unit : Option String
deriving DecidableEq, Repr

/-- `InvoiceDraft`: the validated draft. -/
structure InvoiceDraft where
  business : Business
  client : Client
  header : InvoiceHeader
  lineItems : List LineItem
deriving DecidableEq, Repr

/-- `ValidationResult` discriminated union. -/
inductive ValidationResult where
  | ok (draft : InvoiceDraft)
  | err (issues : List Issue)
deriving DecidableEq, Repr

/-- `SUPPORTED_CURRENCIES` from `validate.ts`. -/
def SUPPORTED_CURRENCIES : List String :=
  ["EUR", "USD", "GBP", "CHF", "CAD", "AUD", "JPY", "CNY", "INR", "BRL",
   "MXN", "KRW", "SEK", "NOK", "DKK", "PLN", "CZK", "HUF", "RON", "BGN",
   "HRK", "RUB", "TRY", "ZAR", "NZD", "SGD", "HKD", "THB", "MYR", "PHP"]

/-- `isObject` type guard: a non-null, non-array object. -/
def Value.isObjectV : Value → Bool
  | Value.vObj _ => true
  | _ => false

/-- `validateRequiredString`: missing/null, non-string, and
empty-after-trim are issues; on success returns the trimmed string.
Returns the value paired with the issues it pushes. -/
def validateRequiredString (obj : List (String × Value)) (field path : String) :
    Option String × List Issue :=
  match getField obj field with
  | Value.vUndefined =>
    (none, [mkIssue IssueCode.MISSING_REQUIRED path (field ++ " is required")])
  | Value.vNull =>
    (none, [mkIssue IssueCode.MISSING_REQUIRED path (field ++ " is required")])
  | Value.vStr s =>
    let trimmed := jsTrim s
    if trimmed = "" then
      (none, [mkIssue IssueCode.MISSING_REQUIRED path (field ++ " cannot be empty")])
    else (some trimmed, [])
  | _ =>
    (none, [mkIssue IssueCode.INVALID_TYPE path (field ++ " must be a string")])

/-- `validateOptionalString`: `undefined`/`null`/`""` are treated as
absent; non-strings are an issue; a string that trims to `""` is
absent (the `value.trim() || undefined` idiom). -/
def validateOptionalString (obj : List (String × Value)) (field path : String) :
    Option String × List Issue :=
  match getField obj field with
  | Value.vUndefined => (none, [])
  | Value.vNull => (none, [])
  | Value.vStr s =>
    if s = "" then (none, [])
    else
      let trimmed := jsTrim s
      if trimmed = "" then (none, []) else (some trimmed, [])
  | _ =>
    (none, [mkIssue IssueCode.INVALID_TYPE path (field ++ " must be a string")])

/-- `validateNumberValue`: sign/zero checks on an already-numeric
value (options: `allowNegative`, `allowZero`). -/
def validateNumberValue (value : JsNum) (field path : String)
    (allowNegative allowZero : Bool) : Option JsNum × List Issue :=
  if !allowNegative && value.ltQ 0 then
    (none,
     [mkIssueHint IssueCode.NEGATIVE_NUMBER path (field ++ " cannot be negative")
        ("Use a positive number")])
  else if !allowZero && value.eqQ 0 then
    (none, [mkIssue IssueCode.INVALID_VALUE path (field ++ " cannot be zero")])
  else (some value, [])

/-- `validateRequiredNumber`: accepts a (non-`NaN`) number or a string
with a parseable numeric prefix; then applies the sign/zero checks. -/
def validateRequiredNumber (obj : List (String × Value)) (field path : String)
    (allowNegative allowZero : Bool) : Option JsNum × List Issue :=
  match getField obj field with
  | Value.vUndefined =>
    (none, [mkIssue IssueCode.MISSING_REQUIRED path (field ++ " is required")])
  | Value.vNull =>
    (none, [mkIssue IssueCode.MISSING_REQUIRED path (field ++ " is required")])
  | Value.vNum n =>
    if n.isNaN then
      (none, [mkIssue IssueCode.INVALID_TYPE path (field ++ " must be a number")])
    else validateNumberValue n field path allowNegative allowZero
  | Value.vStr s =>
    let parsed := jsParseFloat s
    if parsed.isNaN then
      (none, [mkIssue IssueCode.INVALID_TYPE path (field ++ " must be a number")])
    else validateNumberValue parsed field path allowNegative allowZero
  | _ =>
    (none, [mkIssue IssueCode.INVALID_TYPE path (field ++ " must be a number")])

/-- The tail of `validateOptionalNumber` once a numeric value is at hand:
the `allowNegative` / `min` / `max` option checks, in source order
(negative first, then the `min` lower bound, then the `max` upper
bound). -/
def validateOptionalNumChecks (num : JsNum) (field path : String)
    (allowNegative : Bool) (min? max? : Option ℚ) : Option JsNum × List Issue :=
  if !allowNegative && num.ltQ 0 then
    (none, [mkIssue IssueCode.NEGATIVE_NUMBER path (field ++ " cannot be negative")])
  else
    match min? with
    | some mn =>
      if num.ltQ mn then
        (none,
         [mkIssue IssueCode.INVALID_VALUE path
            (field ++ " must be at least " ++ jsToFixed0 (JsNum.fin mn))])
      else
        match max? with
        | some mx =>
          if num.gtQ mx then
            (none,
             [mkIssue IssueCode.INVALID_VALUE path
                (field ++ " must be at most " ++ jsToFixed0 (JsNum.fin mx))])
          else (some num, [])
        | none => (some num, [])
    | none =>
      match max? with
      | some mx =>
        if num.gtQ mx then
          (none,
           [mkIssue IssueCode.INVALID_VALUE path
              (field ++ " must be at most " ++ jsToFixed0 (JsNum.fin mx))])
        else (some num, [])
      | none => (some num, [])

/-- `validateOptionalNumber`: absent on `undefined`/`null`/`""`;
accepts number or numeric string; then negative / min / max checks. -/
def validateOptionalNumber (obj : List (String × Value)) (field path : String)
    (allowNegative : Bool) (min? max? : Option ℚ) : Option JsNum × List Issue :=
  let checks (num : JsNum) : Option JsNum × List Issue :=
    validateOptionalNumChecks num field path allowNegative min? max?
  match getField obj field with
  | Value.vUndefined => (none, [])
  | Value.vNull => (none, [])
  | Value.vStr s =>
    if s = "" then (none, [])
    else
      let parsed := jsParseFloat s
      if parsed.isNaN then
        (none, [mkIssue IssueCode.INVALID_TYPE path (field ++ " must be a number")])
      else checks parsed
  | Value.vNum n =>
    if n.isNaN then
      (none, [mkIssue IssueCode.INVALID_TYPE path (field ++ " must be a number")])
    else checks n
  | _ =>
    (none, [mkIssue IssueCode.INVALID_TYPE path (field ++ " must be a number")])

/-- Zero-pad a natural number to at least `w` decimal digits. -/
def padNat (w n : ℕ) : String :=
  let d := natDecimal n
  ⟨List.replicate (w - d.data.length) '0'⟩ ++ d

/-- Render a UTC calendar day as `YYYY-MM-DD` (what
`Date.prototype.toISOString().split('T')[0]` produces). -/
def isoOfDay (day : ℕ × ℕ × ℕ) : String :=
  padNat 4 day.1 ++ "-" ++ padNat 2 day.2.1 ++ "-" ++ padNat 2 day.2.2

/-- `ISO_DATE_REGEX` (`^\d{4}-\d{2}-\d{2}$`) as a shape check on the
character list. -/
def isoShape (s : String) : Bool :=
  match s.data with
  | [a, b, c, d, h1, e, f, h2, g, h] =>
    a.isDigit && b.isDigit && c.isDigit && d.isDigit && h1 = '-' &&
    e.isDigit && f.isDigit && h2 = '-' && g.isDigit && h.isDigit
  | _ => false

/-- Gregorian days-in-month (proleptic, as used by JS UTC dates). -/
def daysInMonth (year month : ℕ) : ℕ :=
  if month = 2 then
    if year % 4 = 0 ∧ (year % 100 ≠ 0 ∨ year % 400 = 0) then 29 else 28
  else if month = 4 ∨ month = 6 ∨ month = 9 ∨ month = 11 then 30
  else 31

/-- The numeric components of a `YYYY-MM-DD` string (assumes
`isoShape`): `trimmed.split('-').map(Number)`. -/
def isoComponents (s : String) : ℕ × ℕ × ℕ :=
  (digitsToNat (s.data.take 4),
   digitsToNat ((s.data.drop 5).take 2),
   digitsToNat ((s.data.drop 8).take 2))

/-- Model of `new Date(s + 'T00:00:00Z')` on a string already in
`YYYY-MM-DD` shape: per the ECMAScript date-time string format,
out-of-bounds month or day components yield an Invalid Date (`none`);
otherwise the date carries exactly the written components. -/
def jsDateParseIso (s : String) : Option (ℕ × ℕ × ℕ) :=
  let c := isoComponents s
  if 1 ≤ c.2.1 ∧ c.2.1 ≤ 12 ∧ 1 ≤ c.2.2 ∧ c.2.2 ≤ daysInMonth c.1 c.2.1 then
    some c
  else none

/-- `validateIsoDate`: absent handling per `required`; a `Date` object
is converted to ISO form (Invalid Date is an issue); a string must
match `YYYY-MM-DD` (INVALID_FORMAT), construct a real date
(INVALID_DATE) and round-trip its components (INVALID_DATE). -/
def validateIsoDate (obj : List (String × Value)) (field path : String)
    (required : Bool) : Option String × List Issue :=
  match getField obj field with
  | Value.vUndefined =>
    if required then
      (none, [mkIssue IssueCode.MISSING_REQUIRED path (field ++ " is required")])
    else (none, [])
  | Value.vNull =>
    if required then
      (none, [mkIssue IssueCode.MISSING_REQUIRED path (field ++ " is required")])
    else (none, [])
  | Value.vStr s =>
    if s = "" then
      if required then
        (none, [mkIssue IssueCode.MISSING_REQUIRED path (field ++ " is required")])
      else (none, [])
    else
      let trimmed := jsTrim s
      if ¬ isoShape trimmed then
        (none,
         [mkIssueHint IssueCode.INVALID_FORMAT path
            (field ++ " must be in YYYY-MM-DD format") ("Example: 2025-01-15")])
      else
        match jsDateParseIso trimmed with
        | none =>
          (none, [mkIssue IssueCode.INVALID_DATE path (field ++ " is not a valid date")])
        | some parsed =>
          if parsed ≠ isoComponents trimmed then
            (none,
             [mkIssue IssueCode.INVALID_DATE path
                (field ++ " is not a valid calendar date")])
          else (some trimmed, [])
  | Value.vDate d =>
    match d with
    | none =>
      (none, [mkIssue IssueCode.INVALID_DATE path (field ++ " is not a valid date")])
    | some day => (some (isoOfDay day), [])
  | _ =>
    (none,
     [mkIssue IssueCode.INVALID_TYPE path
        (field ++ " must be a date string (YYYY-MM-DD)")])

/-- `validateCurrency`: a required string, uppercased and matched
against the currency allow-list. -/
def validateCurrency (obj : List (String × Value)) (field path : String) :
    Option String × List Issue :=
  match validateRequiredString obj field path with
  | (none, is0) => (none, is0)
  | (some value, is0) =>
    let upper := jsToUpper value
    if upper ∈ SUPPORTED_CURRENCIES then (some upper, is0)
    else
      (none,
       is0 ++
         [mkIssueHint IssueCode.INVALID_VALUE path
            (field ++ " \x22" ++ value ++ "\x22 is not a recognized currency code")
            ("Use ISO 4217 codes like EUR, USD, GBP")])

/-- `validateBusiness`: name/address/email required, phone/logoUrl/taxId
optional; fails when the input is not an object or a required field
failed. -/
def validateBusiness (input : Value) (basePath : String) :
    Option Business × List Issue :=
  match input with
  | Value.vObj fields =>
    let name := validateRequiredString fields ("name") (basePath ++ ".name")
    let address := validateRequiredString fields ("address") (basePath ++ ".address")
    let email := validateRequiredString fields ("email") (basePath ++ ".email")
    let phone := validateOptionalString fields ("phone") (basePath ++ ".phone")
    let logoUrl := validateOptionalString fields ("logoUrl") (basePath ++ ".logoUrl")
    let taxId := validateOptionalString fields ("taxId") (basePath ++ ".taxId")
    let allIssues :=
      name.2 ++ address.2 ++ email.2 ++ phone.2 ++ logoUrl.2 ++ taxId.2
    match name.1, address.1, email.1 with
    | some n, some a, some e =>
      (some { name := n, address := a, email := e,
              phone := phone.1, logoUrl := logoUrl.1, taxId := taxId.1 },
       allIssues)
    | _, _, _ => (none, allIssues)
  | _ =>
    (none, [mkIssue IssueCode.INVALID_TYPE basePath ("business must be an object")])

/-- `validateClient`: name/address required, email optional. -/
def validateClient (input : Value) (basePath : String) :
    Option Client × List Issue :=
  match input with
  | Value.vObj fields =>
    let name := validateRequiredString fields ("name") (basePath ++ ".name")
    let address := validateRequiredString fields ("address") (basePath ++ ".address")
    let email := validateOptionalString fields ("email") (basePath ++ ".email")
    let allIssues := name.2 ++ address.2 ++ email.2
    match name.1, address.1 with
    | some n, some a =>
      (some { name := n, address := a, email := email.1 }, allIssues)
    | _, _ => (none, allIssues)
  | _ =>
    (none, [mkIssue IssueCode.INVALID_TYPE basePath ("client must be an object")])

/-- JavaScript `<` on strings: lexicographic comparison by code
units (code points for the ASCII date strings it is applied to). -/
def jsStringLt : List Char → List Char → Bool
  | [], [] => false
  | [], _ :: _ => true
  | _ :: _, [] => false
  | a :: as, b :: bs =>
    if a < b then true else if b < a then false else jsStringLt as bs

/-- The cross-field DATE_ORDER issue pushed by `validateHeader`. -/
def dateOrderIssue (basePath : String) : Issue :=
  mkIssueHint IssueCode.DATE_ORDER (basePath ++ ".dueDate")
    ("Due date cannot be before issue date")
    ("Set due date on or after the issue date")

/-- `validateHeader`: invoiceNumber/issueDate/currency required,
dueDate/taxRate/notes optional; cross-field check `dueDate < issueDate`
by lexicographic string comparison pushes DATE_ORDER. -/
def validateHeader (input : Value) (basePath : String) :
    Option InvoiceHeader × List Issue :=
  match input with
  | Value.vObj fields =>
    let invoiceNumber :=
      validateRequiredString fields ("invoiceNumber") (basePath ++ ".invoiceNumber")
    let issueDate :=
      validateIsoDate fields ("issueDate") (basePath ++ ".issueDate") true
    let dueDate :=
      validateIsoDate fields ("dueDate") (basePath ++ ".dueDate") false
    let currency :=
      validateCurrency fields ("currency") (basePath ++ ".currency")
    let taxRate :=
      validateOptionalNumber fields ("taxRate") (basePath ++ ".taxRate")
        false (some 0) (some 1)
    let notes := validateOptionalString fields ("notes") (basePath ++ ".notes")
    let orderIssues :=
      match issueDate.1, dueDate.1 with
      | some di, some dd =>
        if jsStringLt dd.data di.data then [dateOrderIssue basePath] else []
      | _, _ => []
    let allIssues :=
      invoiceNumber.2 ++ issueDate.2 ++ dueDate.2 ++ currency.2 ++
        taxRate.2 ++ notes.2 ++ orderIssues
    match invoiceNumber.1, issueDate.1, currency.1 with
    | some inv, some isd, some cur =>
      (some { invoiceNumber := inv, issueDate := isd, dueDate := dueDate.1,
              currency := cur, taxRate := taxRate.1, notes := notes.1 },
       allIssues)
    | _, _, _ => (none, allIssues)
  | _ =>
    (none, [mkIssue IssueCode.INVALID_TYPE basePath ("header must be an object")])

/-- `validateLineItem`: description (required string), quantity
(required number, zero and negative forbidden), unitPrice (required
number, negative forbidden), unit (optional string). -/
def validateLineItem (input : Value) (basePath : String) :
    Option LineItem × List Issue :=
  match input with
  | Value.vObj fields =>
    let description :=
      validateRequiredString fields ("description") (basePath ++ ".description")
    let quantity :=
      validateRequiredNumber fields ("quantity") (basePath ++ ".quantity") false false
    let unitPrice :=
      validateRequiredNumber fields ("unitPrice") (basePath ++ ".unitPrice") false true
    let unit := validateOptionalString fields ("unit") (basePath ++ ".unit")
    let allIssues := description.2 ++ quantity.2 ++ unitPrice.2 ++ unit.2
    match description.1, quantity.1, unitPrice.1 with
    | some d, some q, some p =>
      (some { description := d, quantity := q, unitPrice := p, unit := unit.1 },
       allIssues)
    | _, _, _ => (none, allIssues)
  | _ =>
    (none, [mkIssue IssueCode.INVALID_TYPE basePath ("line item must be an object")])

/-- The indexed loop body of `validateLineItems`: validates each
element at path `basePath[i]`, collecting items and all issues; the
result is `none` when any element failed, but later elements are still
validated. -/
def validateLineItemsAux (basePath : String) : List Value → ℕ →
    Option (List LineItem) × List Issue
  | [], _ => (some [], [])
  | v :: rest, i =>
    let r := validateLineItem v (basePath ++ "[" ++ natDecimal i ++ "]")
    let rr := validateLineItemsAux basePath rest (i + 1)
    (match r.1, rr.1 with
     | some item, some items => some (item :: items)
     | _, _ => none,
     r.2 ++ rr.2)

/-- `validateLineItems`: must be a nonempty array; each element is
validated independently with its own indexed path. -/
def validateLineItems (input : Value) (basePath : String) :
    Option (List LineItem) × List Issue :=
  match input with
  | Value.vArr [] =>
    (none,
     [mkIssueHint IssueCode.EMPTY_ARRAY basePath
        ("At least one line item is required")
        ("Add at least one item to the invoice")])
  | Value.vArr (x :: xs) => validateLineItemsAux basePath (x :: xs) 0
  | _ =>
    (none, [mkIssue IssueCode.INVALID_TYPE basePath ("lineItems must be an array")])

/-- `validateDraft` (`validate.ts`): top-level entry point. A
non-object input short-circuits with a single INVALID_TYPE issue at
path `""`; otherwise all four groups are validated and all issues
accumulated; `ok` requires zero issues and all four groups defined. -/
def validateDraft (input : Value) : ValidationResult :=
  match input with
  | Value.vObj fields =>
    let business := validateBusiness (getField fields ("business")) ("business")
    let client := validateClient (getField fields ("client")) ("client")
    let header := validateHeader (getField fields ("header")) ("header")
    let lineItems := validateLineItems (getField fields ("lineItems")) ("lineItems")
    let issues := business.2 ++ client.2 ++ header.2 ++ lineItems.2
    match business.1, client.1, header.1, lineItems.1 with
    | some b, some c, some h, some li =>
      if issues = [] then ValidationResult.ok
        { business := b, client := c, header := h, lineItems := li }
      else ValidationResult.err issues
    | _, _, _, _ => ValidationResult.err issues
  | _ =>
    ValidationResult.err [mkIssue IssueCode.INVALID_TYPE ("") ("Input must be an object")]

/-- `ComputedTotals` (`types.ts`). -/
structure ComputedTotals where
  lineItemAmounts : List JsNum
  subtotal : JsNum
  taxAmount : JsNum
  total : JsNum
deriving DecidableEq, Repr

/-- `InvoiceComputed`: the draft extended with computed totals. -/
structure InvoiceComputed extends InvoiceDraft where
  computed : ComputedTotals
deriving DecidableEq, Repr

/-- `computeInvoice` (`compute.ts`): per-line amounts are
`quantity × unitPrice`; `subtotal` is the left-to-right `reduce` of the
amounts starting from `0`; `taxAmount = subtotal × (taxRate ?? 0)`;
`total = subtotal + taxAmount`. -/
def computeInvoice (draft : InvoiceDraft) : InvoiceComputed :=
  let lineItemAmounts :=
    draft.lineItems.map (fun item => item.quantity.mul item.unitPrice)
  let subtotal := lineItemAmounts.foldl JsNum.add (JsNum.fin 0)
  let taxRate := draft.header.taxRate.getD (JsNum.fin 0)
  let taxAmount := subtotal.mul taxRate
  let total := subtotal.add taxAmount
  { toInvoiceDraft := draft,
    computed :=
      { lineItemAmounts := lineItemAmounts, subtotal := subtotal,
        taxAmount := taxAmount, total := total } }

/-- `recomputeInvoice` (`compute.ts`): drop the existing `computed`
field (the rest-spread `{ computed: _old, ...draft }`) and recompute
from the draft portion. -/
def recomputeInvoice (invoice : InvoiceComputed) : InvoiceComputed :=
  computeInvoice invoice.toInvoiceDraft

/-- Date format styles (`FormatOptions.dateFormat`). -/
inductive DateStyle where
  | short
  | medium
  | long
deriving DecidableEq, Repr

/-- Currency display modes (`FormatOptions.currencyDisplay`). -/
inductive CurrencyDisplay where
  | symbol
  | code
  | name
deriving DecidableEq, Repr

/-- `FormatOptions` (all fields optional). -/
structure FormatOptions where
  locale : Option String := none
  dateFormat : Option DateStyle := none
  currencyDisplay : Option CurrencyDisplay := none
deriving DecidableEq, Repr

/-- `CURRENCY_LOCALE_MAP` from `format.ts`. -/
def CURRENCY_LOCALE_MAP : List (String × String) :=
  [("EUR", "de-DE"), ("USD", "en-US"), ("GBP", "en-GB"), ("CHF", "de-CH"),
   ("CAD", "en-CA"), ("AUD", "en-AU"), ("JPY", "ja-JP"), ("CNY", "zh-CN"),
   ("INR", "en-IN"), ("BRL", "pt-BR"), ("MXN", "es-MX"), ("KRW", "ko-KR"),
   ("SEK", "sv-SE"), ("NOK", "nb-NO"), ("DKK", "da-DK"), ("PLN", "pl-PL"),
   ("CZK", "cs-CZ"), ("HUF", "hu-HU"), ("RON", "ro-RO"), ("BGN", "bg-BG"),
   ("RUB", "ru-RU"), ("TRY", "tr-TR"), ("ZAR", "en-ZA"), ("NZD", "en-NZ"),
   ("SGD", "en-SG"), ("HKD", "zh-HK"), ("THB", "th-TH"), ("MYR", "ms-MY"),
   ("PHP", "en-PH")]

/-- `DEFAULT_LOCALE` fallback. -/
def DEFAULT_LOCALE : String := "en-US"

/-- `getLocaleForCurrency`: map lookup on the uppercased code with the
default-locale fallback. -/
def getLocaleForCurrency (currency : String) : String :=
  (CURRENCY_LOCALE_MAP.lookup (jsToUpper currency)).getD DEFAULT_LOCALE

/-- Exported `getLocale` utility (`format.ts`). -/
def getLocale (currency : String) : String :=
  getLocaleForCurrency currency

/-- Model of `Number.prototype.toFixed(2)`: the value rounded to two
fraction digits (ties to the larger magnitude), always of the shape
`[-]digits.dd`, hence never empty. -/
def jsToFixed2 (n : JsNum) : String :=
  match n with
  | JsNum.nan => "NaN"
  | JsNum.inf pos => if pos then "Infinity" else "-Infinity"
  | JsNum.fin q =>
    let k := Int.toNat ⌊|q| * 100 + 1/2⌋
    (if q < 0 then "-" else "") ++ natDecimal (k / 100) ++ "." ++ padNat 2 (k % 100)

/-- Model of `Intl.NumberFormat` currency rendering
(`createCurrencyFormatter(...).format`): the real rendering depends on
environment locale data; it is modelled as a deterministic, never-empty
string holding the currency code and the amount fixed to two fraction
digits. Only determinism and non-emptiness are relied on. -/
def intlCurrencyString (locale currency : String) (display : CurrencyDisplay)
    (amount : JsNum) : String :=
  let _ := locale
  let _ := display
  currency ++ " " ++ jsToFixed2 amount

/-- Model of `Intl.NumberFormat` plain number rendering
(`createNumberFormatter(...).format`, 0-2 fraction digits): modelled as
a deterministic, never-empty fixed-2 rendering. -/
def intlNumberString (locale : String) (n : JsNum) : String :=
  let _ := locale
  jsToFixed2 n

/-- Model of `Intl.DateTimeFormat` rendering of a parsed UTC date
(`formatDate` = `createDateFormatter(...).format ∘ parseIsoDate`): the
real rendering depends on environment locale data; modelled as the ISO
date string itself for every style, which is deterministic and
non-empty whenever the input is. -/
def intlDateString (locale : String) (style : DateStyle) (isoDate : String) : String :=
  let _ := locale
  let _ := style
  isoDate

/-- `FormattedBusiness` (`types.ts`): all plain strings. -/
structure FormattedBusiness where
  name : String
  address : String
  email : String
  phone : String
  logoUrl : String
  taxId : String
deriving DecidableEq, Repr

/-- `FormattedClient`. -/
structure FormattedClient where
  name : String
  address : String
  email : String
deriving DecidableEq, Repr

/-- `FormattedHeader`. -/
structure FormattedHeader where
  invoiceNumber : String
  issueDate : String
  dueDate : String
  currency : String
  taxRateDisplay : String
  notes : String
deriving DecidableEq, Repr

/-- `FormattedLineItem`. -/
structure FormattedLineItem where
  description : String
  quantity : String
  unitPrice : String
  amount : String
  unit : String
deriving DecidableEq, Repr

/-- `FormattedTotals`. -/
structure FormattedTotals where
  subtotal : String
  taxAmount : String
  total : String
deriving DecidableEq, Repr

/-- `FormattedInvoice`. -/
structure FormattedInvoice where
  business : FormattedBusiness
  client : FormattedClient
  header : FormattedHeader
  lineItems : List FormattedLineItem
  totals : FormattedTotals
deriving DecidableEq, Repr

/-- `formatBusiness` (`format.ts`): absent optionals become `""` via
`?? ''`. -/
def formatBusiness (business : Business) : FormattedBusiness :=
  { name := business.name, address := business.address, email := business.email,
    phone := business.phone.getD (""), logoUrl := business.logoUrl.getD (""),
    taxId := business.taxId.getD ("") }

/-- `formatClient`. -/
def formatClient (client : Client) : FormattedClient :=
  { name := client.name, address := client.address,
    email := client.email.getD ("") }

/-- `formatHeader`: dates through the date formatter (`dueDate` only
when truthy), `taxRateDisplay = (taxRate * 100).toFixed(0)` when the
rate is present, `notes ?? ''`. -/
def formatHeader (header : InvoiceHeader) (locale : String) (style : DateStyle) :
    FormattedHeader :=
  { invoiceNumber := header.invoiceNumber,
    issueDate := intlDateString locale style header.issueDate,
    dueDate :=
      match header.dueDate with
      | some s => if s = "" then "" else intlDateString locale style s
      | none => "",
    currency := header.currency,
    taxRateDisplay :=
      match header.taxRate with
      | some r => jsToFixed0 (r.mul (JsNum.fin 100))
      | none => "",
    notes := header.notes.getD ("") }

/-- `formatLineItems`: each item with its amount
(`amounts[index] ?? 0`), `unit ?? ''`. -/
def formatLineItems (lineItems : List LineItem) (amounts : List JsNum)
    (locale currency : String) (display : CurrencyDisplay) :
    List FormattedLineItem :=
  lineItems.mapIdx (fun index item =>
    { description := item.description,
      quantity := intlNumberString locale item.quantity,
      unitPrice := intlCurrencyString locale currency display item.unitPrice,
      amount :=
        intlCurrencyString locale currency display (amounts.getD index (JsNum.fin 0)),
      unit := item.unit.getD ("") })

/-- `formatTotals`. -/
def formatTotals (computed : ComputedTotals) (locale currency : String)
    (display : CurrencyDisplay) : FormattedTotals :=
  { subtotal := intlCurrencyString locale currency display computed.subtotal,
    taxAmount := intlCurrencyString locale currency display computed.taxAmount,
    total := intlCurrencyString locale currency display computed.total }

/-- `formatInvoice` (`format.ts`): resolve locale (override or
currency-derived), date style (default medium) and currency display
(default symbol), then format each section. -/
def formatInvoice (invoice : InvoiceComputed) (options : FormatOptions) :
    FormattedInvoice :=
  let currency := invoice.header.currency
  let locale := options.locale.getD (getLocaleForCurrency currency)
  let dateStyle := options.dateFormat.getD DateStyle.medium
  let currencyDisplay := options.currencyDisplay.getD CurrencyDisplay.symbol
  { business := formatBusiness invoice.business,
    client := formatClient invoice.client,
    header := formatHeader invoice.header locale dateStyle,
    lineItems :=
      formatLineItems invoice.lineItems invoice.computed.lineItemAmounts
        locale currency currencyDisplay,
    totals := formatTotals invoice.computed locale currency currencyDisplay }

/-- `ProcessResult` discriminated union (`types.ts`). -/
inductive ProcessResult where
  | ok (invoice : FormattedInvoice) (computed : InvoiceComputed)
  | err (issues : List Issue)
deriving DecidableEq, Repr

/-- `processInvoice` (`index.ts`): validate, and on success compute
then format; on failure return the issues unchanged. -/
def processInvoice (input : Value) (options : FormatOptions) : ProcessResult :=
  match validateDraft input with
  | ValidationResult.err issues => ProcessResult.err issues
  | ValidationResult.ok draft =>
    let computed := computeInvoice draft
    let invoice := formatInvoice computed options
    ProcessResult.ok invoice computed

/-- `processDraft` (`index.ts`): compute + format on an
already-validated draft, without re-validating. -/
def processDraft (draft : InvoiceDraft) (options : FormatOptions) :
    InvoiceComputed × FormattedInvoice :=
  let computed := computeInvoice draft
  let invoice := formatInvoice computed options
  (computed, invoice)

/-- One optional field of a re-serialized draft: present when `some`. -/
def optEntry (key : String) : Option Value → List (String × Value)
  | some v => [(key, v)]
  | none => []

/-- The raw field list of a re-serialized `Business`. -/
def businessFields (b : Business) : List (String × Value) :=
  [("name", Value.vStr b.name), ("address", Value.vStr b.address),
   ("email", Value.vStr b.email)] ++
    optEntry ("phone") (b.phone.map Value.vStr) ++
    optEntry ("logoUrl") (b.logoUrl.map Value.vStr) ++
    optEntry ("taxId") (b.taxId.map Value.vStr)

/-- Re-serialization of a validated `Business` to raw input. -/
def businessToValue (b : Business) : Value :=
  Value.vObj (businessFields b)

/-- The raw field list of a re-serialized `Client`. -/
def clientFields (c : Client) : List (String × Value) :=
  [("name", Value.vStr c.name), ("address", Value.vStr c.address)] ++
    optEntry ("email") (c.email.map Value.vStr)

/-- Re-serialization of a validated `Client`. -/
def clientToValue (c : Client) : Value :=
  Value.vObj (clientFields c)

/-- The raw field list of a re-serialized `InvoiceHeader`. -/
def headerFields (h : InvoiceHeader) : List (String × Value) :=
  [("invoiceNumber", Value.vStr h.invoiceNumber),
   ("issueDate", Value.vStr h.issueDate)] ++
    optEntry ("dueDate") (h.dueDate.map Value.vStr) ++
    [("currency", Value.vStr h.currency)] ++
    optEntry ("taxRate") (h.taxRate.map Value.vNum) ++
    optEntry ("notes") (h.notes.map Value.vStr)

/-- Re-serialization of a validated `InvoiceHeader`. -/
def headerToValue (h : InvoiceHeader) : Value :=
  Value.vObj (headerFields h)

/-- The raw field list of a re-serialized `LineItem`. -/
def lineItemFields (li : LineItem) : List (String × Value) :=
  [("description", Value.vStr li.description),
   ("quantity", Value.vNum li.quantity),
   ("unitPrice", Value.vNum li.unitPrice)] ++
    optEntry ("unit") (li.unit.map Value.vStr)

/-- Re-serialization of a validated `LineItem`. -/
def lineItemToValue (li : LineItem) : Value :=
  Value.vObj (lineItemFields li)

/-- Re-serialization of a validated `InvoiceDraft` to raw input. -/
def draftToValue (d : InvoiceDraft) : Value :=
  Value.vObj
    [("business", businessToValue d.business),
     ("client", clientToValue d.client),
     ("header", headerToValue d.header),
     ("lineItems", Value.vArr (d.lineItems.map lineItemToValue))]

/-- Placeholder line item used only as a `getD` default. -/
def dummyLineItem : LineItem :=
  { description := "", quantity := JsNum.nan, unitPrice := JsNum.nan, unit := none }

/-- A concrete raw input that validates successfully (used to witness
theorems with hypotheses). -/
def sampleInput : Value :=
  Value.vObj
    [("business", Value.vObj
        [("name", Value.vStr (" Acme GmbH ")), ("address", Value.vStr ("1 Road")),
         ("email", Value.vStr ("a@b.c"))]),
     ("client", Value.vObj
        [("name", Value.vStr ("Client")), ("address", Value.vStr ("2 Road"))]),
     ("header", Value.vObj
        [("invoiceNumber", Value.vStr ("INV-1")),
         ("issueDate", Value.vStr ("2025-01-15")),
         ("dueDate", Value.vStr ("2025-02-15")),
         ("currency", Value.vStr ("eur")),
         ("taxRate", Value.vNum (JsNum.fin (19/100)))]),
     ("lineItems", Value.vArr
        [Value.vObj
           [("description", Value.vStr ("Service")),
            ("quantity", Value.vNum (JsNum.fin 2)),
            ("unitPrice", Value.vStr ("100"))]])]

/-- The draft produced by validating `sampleInput`. -/
def sampleDraft : InvoiceDraft :=
  { business :=
      { name := "Acme GmbH", address := "1 Road", email := "a@b.c",
        phone := none, logoUrl := none, taxId := none },
    client := { name := "Client", address := "2 Road", email := none },
    header :=
      { invoiceNumber := "INV-1", issueDate := "2025-01-15",
        dueDate := some "2025-02-15", currency := "EUR",
        taxRate := some (JsNum.fin (19/100)), notes := none },
    lineItems :=
      [{ description := "Service", quantity := JsNum.fin 2,
         unitPrice := JsNum.fin 100, unit := none }] }

/-- Sanity: the validator maps `sampleInput` to `sampleDraft`
(trimming, currency uppercasing and numeric-string coercion applied). -/
theorem validateDraft_sampleInput :
    validateDraft sampleInput = ValidationResult.ok sampleDraft := by
  decide

/-- C1: for every validated draft, `computeInvoice` satisfies the
defining equations — `lineItemAmounts` has one entry per line item in
the same order, each `quantity × unitPrice`; `subtotal` is the
left-to-right sum of the amounts starting from 0; `taxAmount` is
`subtotal × taxRate` when the rate is present and `subtotal × 0` when
absent (hence exactly 0 whenever the subtotal is finite);
`total = subtotal + taxAmount`; in particular
`subtotal = sum(lineItemAmounts)` exactly for any line-item count. -/
theorem computeInvoice_defining_equations (draft : InvoiceDraft) :
    (computeInvoice draft).computed.lineItemAmounts.length =
        draft.lineItems.length ∧
    (∀ k, k < draft.lineItems.length →
      (computeInvoice draft).computed.lineItemAmounts.getD k JsNum.nan =
        JsNum.mul (draft.lineItems.getD k dummyLineItem).quantity
          (draft.lineItems.getD k dummyLineItem).unitPrice) ∧
    (computeInvoice draft).computed.subtotal =
      (computeInvoice draft).computed.lineItemAmounts.foldl JsNum.add (JsNum.fin 0) ∧
    (∀ r, draft.header.taxRate = some r →
      (computeInvoice draft).computed.taxAmount =
        JsNum.mul (computeInvoice draft).computed.subtotal r) ∧
    (draft.header.taxRate = none →
      (computeInvoice draft).computed.taxAmount =
        JsNum.mul (computeInvoice draft).computed.subtotal (JsNum.fin 0)) ∧
    (computeInvoice draft).computed.total =
      JsNum.add (computeInvoice draft).computed.subtotal
        (computeInvoice draft).computed.taxAmount ∧
    (∀ q, (computeInvoice draft).computed.subtotal = JsNum.fin q →
      draft.header.taxRate = none →
      (computeInvoice draft).computed.taxAmount = JsNum.fin 0) := by
  refine ⟨by simp [computeInvoice], ?_, rfl, ?_, ?_, rfl, ?_⟩
  · intro k hk
    have hk2 : k < (draft.lineItems.map
        (fun item => item.quantity.mul item.unitPrice)).length := by
      simpa using hk
    simp only [computeInvoice]
    rw [List.getD_eq_getElem _ _ hk2, List.getD_eq_getElem _ _ hk,
      List.getElem_map]
  · intro r hr
    simp [computeInvoice, hr]
  · intro hr
    simp [computeInvoice, hr]
  · intro q hq hr
    simp only [computeInvoice, hr] at hq ⊢
    rw [hq]
    simp [JsNum.mul]

/-- Witness for C1 at a concrete draft: one line item 2 × 100,
tax rate 19 %. -/
theorem computeInvoice_defining_equations_witness :
    (computeInvoice sampleDraft).computed.lineItemAmounts.getD 0 JsNum.nan =
        JsNum.fin 200 ∧
    (computeInvoice sampleDraft).computed.subtotal = JsNum.fin 200 ∧
    (computeInvoice sampleDraft).computed.taxAmount = JsNum.fin 38 ∧
    (computeInvoice sampleDraft).computed.total = JsNum.fin 238 := by
  have h := computeInvoice_defining_equations sampleDraft
  refine ⟨?_, by decide, ?_, by decide⟩
  · have := h.2.1 0 (by decide)
    simpa using this
  · have := h.2.2.2.1 (JsNum.fin (19/100)) (by decide)
    rw [this]
    decide

/-- C7: `recomputeInvoice` is determined entirely by the draft part —
for any draft and ANY (possibly stale or arbitrary) existing totals,
recomputing yields exactly `computeInvoice` of the draft, so edited
line items can never coexist with stale totals after a recompute. -/
theorem recomputeInvoice_ignores_stale_totals :
    ∀ (draft : InvoiceDraft) (stale : ComputedTotals),
      recomputeInvoice { toInvoiceDraft := draft, computed := stale } =
        computeInvoice draft :=
  fun _ _ => rfl

/-- C3: `processInvoice` is the strict sequential composition
validate → compute → format: a failed validation propagates exactly its
issues (compute/format contribute nothing), a successful validation
yields exactly `computeInvoice draft` and
`formatInvoice (computeInvoice draft) options`; and `processDraft`
returns the same computed and formatted values without re-validating. -/
theorem processInvoice_composition (input : Value) (options : FormatOptions) :
    (∀ issues, validateDraft input = ValidationResult.err issues →
      processInvoice input options = ProcessResult.err issues) ∧
    (∀ draft, validateDraft input = ValidationResult.ok draft →
      processInvoice input options =
        ProcessResult.ok (formatInvoice (computeInvoice draft) options)
          (computeInvoice draft)) ∧
    (∀ draft, processDraft draft options =
      (computeInvoice draft, formatInvoice (computeInvoice draft) options)) := by
  refine ⟨?_, ?_, fun _ => rfl⟩
  · intro issues h
    simp [processInvoice, h]
  · intro draft h
    simp [processInvoice, h]

/-- Witness for C3: the error branch at a non-object input and the
success branch at `sampleInput`. -/
theorem processInvoice_composition_witness :
    processInvoice Value.vNull {} =
      ProcessResult.err
        [mkIssue IssueCode.INVALID_TYPE ("") ("Input must be an object")] ∧
    processInvoice sampleInput {} =
      ProcessResult.ok (formatInvoice (computeInvoice sampleDraft) {})
        (computeInvoice sampleDraft) :=
  ⟨(processInvoice_composition Value.vNull {}).1 _ rfl,
   (processInvoice_composition sampleInput {}).2.1 sampleDraft
     validateDraft_sampleInput⟩

/-- `isNaN` characterisation. -/
theorem JsNum.isNaN_iff (n : JsNum) : n.isNaN = true ↔ n = JsNum.nan := by
  cases n <;> simp [JsNum.isNaN]

/-- The sign/zero checks emit only NEGATIVE_NUMBER or INVALID_VALUE
issues. -/
theorem validateNumberValue_codes (v : JsNum) (field path : String)
    (an az : Bool) :
    ∀ i ∈ (validateNumberValue v field path an az).2,
      i.code = IssueCode.NEGATIVE_NUMBER ∨ i.code = IssueCode.INVALID_VALUE := by
  unfold validateNumberValue
  split_ifs <;> simp [mkIssue, mkIssueHint]

/-- C10: numeric-string coercion uses prefix parsing, not whole-string
parsing — whenever the field holds a string on which `parseFloat`
succeeds (including strings with trailing garbage such as `"12abc"`,
which parses to 12) the field is accepted with the parsed value,
subject only to the sign/zero checks; INVALID_TYPE is emitted exactly
when the string parses to `NaN` or the value is neither a number nor a
string. -/
theorem validateRequiredNumber_prefix_coercion
    (obj : List (String × Value)) (field path : String) (an az : Bool) :
    (∀ s, getField obj field = Value.vStr s → jsParseFloat s ≠ JsNum.nan →
      validateRequiredNumber obj field path an az =
        validateNumberValue (jsParseFloat s) field path an az) ∧
    (∀ s, getField obj field = Value.vStr s → jsParseFloat s = JsNum.nan →
      validateRequiredNumber obj field path an az =
        (none, [mkIssue IssueCode.INVALID_TYPE path (field ++ " must be a number")])) ∧
    ((∃ i ∈ (validateRequiredNumber obj field path an az).2,
        i.code = IssueCode.INVALID_TYPE) ↔
      (match getField obj field with
       | Value.vStr s => jsParseFloat s = JsNum.nan
       | Value.vNum n => n = JsNum.nan
       | Value.vUndefined => False
       | Value.vNull => False
       | _ => True)) ∧
    jsParseFloat ("12abc") = JsNum.fin 12 := by
  refine ⟨?_, ?_, ?_, by decide⟩
  · intro s hs hp
    simp only [validateRequiredNumber, hs]
    rw [if_neg (by simpa [JsNum.isNaN_iff] using hp)]
  · intro s hs hp
    simp only [validateRequiredNumber, hs]
    rw [if_pos (by simpa [JsNum.isNaN_iff] using hp)]
  · cases hv : getField obj field <;>
      simp only [validateRequiredNumber, hv]
    case vNull => simp [mkIssue]
    case vUndefined => simp [mkIssue]
    case vBool => simp [mkIssue]
    case vArr => simp [mkIssue]
    case vObj => simp [mkIssue]
    case vDate => simp [mkIssue]
    case vNum n =>
      rcases n with _ | pos | q <;>
        simp [JsNum.isNaN, mkIssue]
      · intro i hi
        rcases validateNumberValue_codes (JsNum.inf pos) field path an az i hi with h | h <;>
          simp [h]
      · intro i hi
        rcases validateNumberValue_codes (JsNum.fin q) field path an az i hi with h | h <;>
          simp [h]
    case vStr s =>
      by_cases hp : jsParseFloat s = JsNum.nan
      · simp [hp, JsNum.isNaN, mkIssue]
      · rw [if_neg (by simpa [JsNum.isNaN_iff] using hp)]
        simp only [hp, iff_false]
        rintro ⟨i, hi, hc⟩
        rcases validateNumberValue_codes (jsParseFloat s) field path an az i hi with h | h <;>
          simp [h] at hc

/-- Witness for C10: `"12abc"` on a quantity field is accepted as 12. -/
theorem validateRequiredNumber_prefix_coercion_witness :
    validateRequiredNumber [("quantity", Value.vStr ("12abc"))] ("quantity")
      ("lineItems[0].quantity") false false = (some (JsNum.fin 12), []) := by
  have h :=
    (validateRequiredNumber_prefix_coercion
      [("quantity", Value.vStr ("12abc"))] ("quantity")
      ("lineItems[0].quantity") false false).1 ("12abc") rfl (by decide)
  rw [h]
  decide

/-- Required-string validation emits only MISSING_REQUIRED or
INVALID_TYPE issues. -/
theorem validateRequiredString_codes (obj : List (String × Value))
    (field path : String) :
    ∀ i ∈ (validateRequiredString obj field path).2,
      i.code = IssueCode.MISSING_REQUIRED ∨ i.code = IssueCode.INVALID_TYPE := by
  unfold validateRequiredString
  cases getField obj field <;> simp [mkIssue]
  split_ifs <;> simp [mkIssue]

/-- Optional-string validation emits only INVALID_TYPE issues. -/
theorem validateOptionalString_codes (obj : List (String × Value))
    (field path : String) :
    ∀ i ∈ (validateOptionalString obj field path).2,
      i.code = IssueCode.INVALID_TYPE := by
  unfold validateOptionalString
  cases getField obj field <;> simp [mkIssue]
  split_ifs <;> simp

/-- The option checks emit only NEGATIVE_NUMBER or INVALID_VALUE
issues. -/
theorem validateOptionalNumChecks_codes (num : JsNum) (field path : String)
    (an : Bool) (mn mx : Option ℚ) :
    ∀ i ∈ (validateOptionalNumChecks num field path an mn mx).2,
      i.code = IssueCode.NEGATIVE_NUMBER ∨ i.code = IssueCode.INVALID_VALUE := by
  unfold validateOptionalNumChecks
  split_ifs <;> cases mn <;> cases mx <;> simp [mkIssue] <;> split_ifs <;>
    simp [mkIssue]

/-- Optional-number validation emits only INVALID_TYPE,
NEGATIVE_NUMBER or INVALID_VALUE issues. -/
theorem validateOptionalNumber_codes (obj : List (String × Value))
    (field path : String) (an : Bool) (mn mx : Option ℚ) :
    ∀ i ∈ (validateOptionalNumber obj field path an mn mx).2,
      i.code = IssueCode.INVALID_TYPE ∨ i.code = IssueCode.NEGATIVE_NUMBER ∨
        i.code = IssueCode.INVALID_VALUE := by
  unfold validateOptionalNumber
  cases getField obj field <;> simp [mkIssue]
  case vNum n =>
    split_ifs
    · simp [mkIssue]
    · intro i hi
      have := validateOptionalNumChecks_codes n field path an mn mx i hi
      tauto
  case vStr s =>
    split_ifs
    · simp
    · simp [mkIssue]
    · intro i hi
      have := validateOptionalNumChecks_codes (jsParseFloat s) field path an mn mx i hi
      tauto

/-- Currency validation emits only MISSING_REQUIRED, INVALID_TYPE or
INVALID_VALUE issues. -/
theorem validateCurrency_codes (obj : List (String × Value))
    (field path : String) :
    ∀ i ∈ (validateCurrency obj field path).2,
      i.code = IssueCode.MISSING_REQUIRED ∨ i.code = IssueCode.INVALID_TYPE ∨
        i.code = IssueCode.INVALID_VALUE := by
  unfold validateCurrency
  cases hr : validateRequiredString obj field path with
  | mk val is0 =>
    cases val with
    | none =>
      intro i hi
      have := validateRequiredString_codes obj field path i (by rw [hr]; simpa using hi)
      tauto
    | some v =>
      dsimp only
      split_ifs <;> intro i hi
      · have := validateRequiredString_codes obj field path i (by rw [hr]; simpa using hi)
        tauto
      · simp only [List.mem_append] at hi
        rcases hi with hi | hi
        · have := validateRequiredString_codes obj field path i (by rw [hr]; simpa using hi)
          tauto
        · simp only [List.mem_singleton] at hi
          subst hi
          simp [mkIssueHint]

/-- `sampleInput` with issueDate replaced by `"2025-02-30"`
(spec Scenario 4). -/
def scenario4Input : Value :=
  Value.vObj
    [("business", Value.vObj
        [("name", Value.vStr (" Acme GmbH ")), ("address", Value.vStr ("1 Road")),
         ("email", Value.vStr ("a@b.c"))]),
     ("client", Value.vObj
        [("name", Value.vStr ("Client")), ("address", Value.vStr ("2 Road"))]),
     ("header", Value.vObj
        [("invoiceNumber", Value.vStr ("INV-1")),
         ("issueDate", Value.vStr ("2025-02-30")),
         ("dueDate", Value.vStr ("2025-02-15")),
         ("currency", Value.vStr ("eur")),
         ("taxRate", Value.vNum (JsNum.fin (19/100)))]),
     ("lineItems", Value.vArr
        [Value.vObj
           [("description", Value.vStr ("Service")),
            ("quantity", Value.vNum (JsNum.fin 2)),
            ("unitPrice", Value.vStr ("100"))]])]

/-- C5: a date field accepts a native date value (converted to ISO
calendar form) or a string matching `YYYY-MM-DD`; a string not matching
that shape yields INVALID_FORMAT; a shape-matching string whose
components do not survive date construction yields INVALID_DATE at the
field's path; a shape-matching string that constructs a real date is
accepted as the trimmed string; and on Scenario 4 (issueDate
`"2025-02-30"`) the whole validation fails with exactly the
INVALID_DATE issue at path `"header.issueDate"`. -/
theorem validateIsoDate_rules (obj : List (String × Value))
    (field path : String) (required : Bool) :
    (∀ day, getField obj field = Value.vDate (some day) →
      validateIsoDate obj field path required = (some (isoOfDay day), [])) ∧
    (∀ s, getField obj field = Value.vStr s → s ≠ "" →
      isoShape (jsTrim s) = false →
      validateIsoDate obj field path required =
        (none,
         [mkIssueHint IssueCode.INVALID_FORMAT path
            (field ++ " must be in YYYY-MM-DD format") ("Example: 2025-01-15")])) ∧
    (∀ s, getField obj field = Value.vStr s → s ≠ "" →
      isoShape (jsTrim s) = true → jsDateParseIso (jsTrim s) = none →
      validateIsoDate obj field path required =
        (none, [mkIssue IssueCode.INVALID_DATE path (field ++ " is not a valid date")])) ∧
    (∀ s c, getField obj field = Value.vStr s → s ≠ "" →
      isoShape (jsTrim s) = true → jsDateParseIso (jsTrim s) = some c →
      validateIsoDate obj field path required = (some (jsTrim s), [])) ∧
    validateDraft scenario4Input =
      ValidationResult.err
        [mkIssue IssueCode.INVALID_DATE ("header.issueDate")
           ("issueDate is not a valid date")] := by
  refine ⟨?_, ?_, ?_, ?_, by decide⟩
  · intro day h
    simp [validateIsoDate, h]
  · intro s h hne hshape
    simp [validateIsoDate, h, hne, hshape]
  · intro s h hne hshape hparse
    simp [validateIsoDate, h, hne, hshape, hparse]
  · intro s c h hne hshape hparse
    have hc : c = isoComponents (jsTrim s) := by
      unfold jsDateParseIso at hparse
      dsimp only at hparse
      split_ifs at hparse with hcond
      exact (Option.some_inj.mp hparse).symm
    subst hc
    simp [validateIsoDate, h, hne, hshape, hparse]

/-- Witness for C5: a native date, a malformed string, and the
Scenario-4 overflow string, each at concrete inputs. -/
theorem validateIsoDate_rules_witness :
    validateIsoDate [("issueDate", Value.vDate (some (2025, 1, 15)))]
      ("issueDate") ("header.issueDate") true = (some ("2025-01-15"), []) ∧
    validateIsoDate [("issueDate", Value.vStr ("15.01.2025"))]
      ("issueDate") ("header.issueDate") true =
      (none,
       [mkIssueHint IssueCode.INVALID_FORMAT ("header.issueDate")
          ("issueDate must be in YYYY-MM-DD format") ("Example: 2025-01-15")]) ∧
    validateIsoDate [("issueDate", Value.vStr ("2025-02-30"))]
      ("issueDate") ("header.issueDate") true =
      (none,
       [mkIssue IssueCode.INVALID_DATE ("header.issueDate")
          ("issueDate is not a valid date")]) := by
  refine ⟨?_, ?_, ?_⟩
  · have h :=
      (validateIsoDate_rules [("issueDate", Value.vDate (some (2025, 1, 15)))]
        ("issueDate") ("header.issueDate") true).1 (2025, 1, 15) rfl
    rw [h]
    decide
  · exact (validateIsoDate_rules [("issueDate", Value.vStr ("15.01.2025"))]
      ("issueDate") ("header.issueDate") true).2.1 ("15.01.2025") rfl
      (by decide) (by decide)
  · exact (validateIsoDate_rules [("issueDate", Value.vStr ("2025-02-30"))]
      ("issueDate") ("header.issueDate") true).2.2.1 ("2025-02-30") rfl
      (by decide) (by decide) (by decide)

/-- Header fields with `dueDate` equal to `issueDate`. -/
def headerEqDatesFields : List (String × Value) :=
  [("invoiceNumber", Value.vStr ("INV-1")),
   ("issueDate", Value.vStr ("2025-01-15")),
   ("dueDate", Value.vStr ("2025-01-15")),
   ("currency", Value.vStr ("EUR"))]

/-- Header fields with `dueDate` one day before `issueDate`. -/
def headerEarlyDueFields : List (String × Value) :=
  [("invoiceNumber", Value.vStr ("INV-1")),
   ("issueDate", Value.vStr ("2025-01-15")),
   ("dueDate", Value.vStr ("2025-01-14")),
   ("currency", Value.vStr ("EUR"))]

/-- C6: when both dates individually validate, `validateHeader` emits a
DATE_ORDER issue at path `basePath.dueDate` if and only if the due date
is strictly before the issue date under lexicographic comparison of the
two ISO date strings; in particular an equal due date is accepted. -/
theorem validateHeader_date_order_iff (fields : List (String × Value))
    (basePath di dd : String)
    (hdi : validateIsoDate fields ("issueDate") (basePath ++ ".issueDate") true =
      (some di, []))
    (hdd : validateIsoDate fields ("dueDate") (basePath ++ ".dueDate") false =
      (some dd, [])) :
    (∃ i ∈ (validateHeader (Value.vObj fields) basePath).2,
        i.code = IssueCode.DATE_ORDER ∧ i.path = basePath ++ ".dueDate") ↔
      jsStringLt dd.data di.data = true := by
  rcases hinv : validateRequiredString fields ("invoiceNumber")
    (basePath ++ ".invoiceNumber") with ⟨invv, invis⟩
  rcases hcur : validateCurrency fields ("currency")
    (basePath ++ ".currency") with ⟨curv, curis⟩
  rcases htax : validateOptionalNumber fields ("taxRate")
    (basePath ++ ".taxRate") false (some 0) (some 1) with ⟨taxv, taxis⟩
  rcases hnot : validateOptionalString fields ("notes")
    (basePath ++ ".notes") with ⟨notv, notis⟩
  constructor
  · rintro ⟨i, hi, hcode, hpath⟩
    by_contra hlt
    simp only [validateHeader, hdi, hdd, hinv, hcur, htax, hnot, hlt,
      if_false, Bool.false_eq_true] at hi
    have hi2 : i ∈ invis ++ curis ++ taxis ++ notis := by
      cases invv <;> cases curv <;> simpa using hi
    simp only [List.mem_append] at hi2
    rcases hi2 with ((hi2 | hi2) | hi2) | hi2
    · rcases validateRequiredString_codes fields ("invoiceNumber")
        (basePath ++ ".invoiceNumber") i (by rw [hinv]; exact hi2) with h | h <;>
        simp [h] at hcode
    · rcases validateCurrency_codes fields ("currency")
        (basePath ++ ".currency") i (by rw [hcur]; exact hi2) with h | h | h <;>
        simp [h] at hcode
    · rcases validateOptionalNumber_codes fields ("taxRate")
        (basePath ++ ".taxRate") false (some 0) (some 1) i
        (by rw [htax]; exact hi2) with h | h | h <;> simp [h] at hcode
    · have := validateOptionalString_codes fields ("notes")
        (basePath ++ ".notes") i (by rw [hnot]; exact hi2)
      simp [this] at hcode
  · intro hlt
    refine ⟨dateOrderIssue basePath, ?_, by simp [dateOrderIssue, mkIssueHint],
      by simp [dateOrderIssue, mkIssueHint]⟩
    simp only [validateHeader, hdi, hdd, hinv, hcur, htax, hnot, hlt, if_true]
    cases invv <;> cases curv <;> simp

/-- Witness for C6: due date equal to the issue date emits no
DATE_ORDER issue; due date one day earlier emits one. -/
theorem validateHeader_date_order_iff_witness :
    (¬ ∃ i ∈ (validateHeader (Value.vObj headerEqDatesFields) ("header")).2,
        i.code = IssueCode.DATE_ORDER ∧ i.path = "header" ++ ".dueDate") ∧
    (∃ i ∈ (validateHeader (Value.vObj headerEarlyDueFields) ("header")).2,
        i.code = IssueCode.DATE_ORDER ∧ i.path = "header" ++ ".dueDate") := by
  constructor
  · intro h
    have := (validateHeader_date_order_iff headerEqDatesFields ("header")
      ("2025-01-15") ("2025-01-15") (by decide) (by decide)).1 h
    exact absurd this (by decide)
  · exact (validateHeader_date_order_iff headerEarlyDueFields ("header")
      ("2025-01-15") ("2025-01-14") (by decide) (by decide)).2 (by decide)

/-- A failed required-string validation always pushes an issue. -/
theorem validateRequiredString_none_ne_nil (obj : List (String × Value))
    (field path : String) :
    (validateRequiredString obj field path).1 = none →
      (validateRequiredString obj field path).2 ≠ [] := by
  unfold validateRequiredString
  cases getField obj field <;> simp [mkIssue]
  split_ifs <;> simp

/-- A failed sign/zero check always pushes an issue. -/
theorem validateNumberValue_none_ne_nil (v : JsNum) (field path : String)
    (an az : Bool) :
    (validateNumberValue v field path an az).1 = none →
      (validateNumberValue v field path an az).2 ≠ [] := by
  unfold validateNumberValue
  split_ifs <;> simp

/-- A failed required-number validation always pushes an issue. -/
theorem validateRequiredNumber_none_ne_nil (obj : List (String × Value))
    (field path : String) (an az : Bool) :
    (validateRequiredNumber obj field path an az).1 = none →
      (validateRequiredNumber obj field path an az).2 ≠ [] := by
  unfold validateRequiredNumber
  cases getField obj field <;> simp [mkIssue]
  case vNum n =>
    split_ifs
    · simp
    · exact validateNumberValue_none_ne_nil n field path an az
  case vStr s =>
    split_ifs
    · simp
    · exact validateNumberValue_none_ne_nil (jsParseFloat s) field path an az

/-- A failed required date validation always pushes an issue. -/
theorem validateIsoDate_required_none_ne_nil (obj : List (String × Value))
    (field path : String) :
    (validateIsoDate obj field path true).1 = none →
      (validateIsoDate obj field path true).2 ≠ [] := by
  unfold validateIsoDate
  cases getField obj field <;> simp [mkIssue]
  case vStr s =>
    split_ifs <;> try simp
    split <;> try simp
    split_ifs <;> simp
  case vDate d => cases d <;> simp [mkIssue]

/-- A failed currency validation always pushes an issue. -/
theorem validateCurrency_none_ne_nil (obj : List (String × Value))
    (field path : String) :
    (validateCurrency obj field path).1 = none →
      (validateCurrency obj field path).2 ≠ [] := by
  unfold validateCurrency
  rcases hr : validateRequiredString obj field path with ⟨rv, ris⟩
  have hrn := validateRequiredString_none_ne_nil obj field path
  rw [hr] at hrn
  cases rv with
  | none => simpa using hrn
  | some v =>
    dsimp only
    split_ifs <;> simp

/-- A failed business validation always pushes an issue. -/
theorem validateBusiness_none_ne_nil (input : Value) (basePath : String) :
    (validateBusiness input basePath).1 = none →
      (validateBusiness input basePath).2 ≠ [] := by
  cases input <;> simp [validateBusiness, mkIssue]
  case vObj fields =>
    rcases hn : validateRequiredString fields ("name") (basePath ++ ".name")
      with ⟨nv, nis⟩
    rcases ha : validateRequiredString fields ("address") (basePath ++ ".address")
      with ⟨av, ais⟩
    rcases he : validateRequiredString fields ("email") (basePath ++ ".email")
      with ⟨ev, eis⟩
    have hnn := validateRequiredString_none_ne_nil fields ("name") (basePath ++ ".name")
    have han := validateRequiredString_none_ne_nil fields ("address") (basePath ++ ".address")
    have hen := validateRequiredString_none_ne_nil fields ("email") (basePath ++ ".email")
    rw [hn] at hnn
    rw [ha] at han
    rw [he] at hen
    simp only [hn, ha, he]
    cases nv <;> cases av <;> cases ev <;> simp_all

/-- A failed client validation always pushes an issue. -/
theorem validateClient_none_ne_nil (input : Value) (basePath : String) :
    (validateClient input basePath).1 = none →
      (validateClient input basePath).2 ≠ [] := by
  cases input <;> simp [validateClient, mkIssue]
  case vObj fields =>
    rcases hn : validateRequiredString fields ("name") (basePath ++ ".name")
      with ⟨nv, nis⟩
    rcases ha : validateRequiredString fields ("address") (basePath ++ ".address")
      with ⟨av, ais⟩
    have hnn := validateRequiredString_none_ne_nil fields ("name") (basePath ++ ".name")
    have han := validateRequiredString_none_ne_nil fields ("address") (basePath ++ ".address")
    rw [hn] at hnn
    rw [ha] at han
    simp only [hn, ha]
    cases nv <;> cases av <;> simp_all

/-- A failed header validation always pushes an issue. -/
theorem validateHeader_none_ne_nil (input : Value) (basePath : String) :
    (validateHeader input basePath).1 = none →
      (validateHeader input basePath).2 ≠ [] := by
  cases input <;> simp [validateHeader, mkIssue]
  case vObj fields =>
    rcases hinv : validateRequiredString fields ("invoiceNumber")
      (basePath ++ ".invoiceNumber") with ⟨invv, invis⟩
    rcases hisd : validateIsoDate fields ("issueDate")
      (basePath ++ ".issueDate") true with ⟨isdv, isdis⟩
    rcases hcur : validateCurrency fields ("currency")
      (basePath ++ ".currency") with ⟨curv, curis⟩
    have hinvn := validateRequiredString_none_ne_nil fields ("invoiceNumber")
      (basePath ++ ".invoiceNumber")
    have hisdn := validateIsoDate_required_none_ne_nil fields ("issueDate")
      (basePath ++ ".issueDate")
    have hcurn := validateCurrency_none_ne_nil fields ("currency")
      (basePath ++ ".currency")
    rw [hinv] at hinvn
    rw [hisd] at hisdn
    rw [hcur] at hcurn
    simp only [hinv, hisd, hcur]
    cases invv <;> cases isdv <;> cases curv <;> simp_all

/-- A failed line-item validation always pushes an issue. -/
theorem validateLineItem_none_ne_nil (input : Value) (basePath : String) :
    (validateLineItem input basePath).1 = none →
      (validateLineItem input basePath).2 ≠ [] := by
  cases input <;> simp [validateLineItem, mkIssue]
  case vObj fields =>
    rcases hd : validateRequiredString fields ("description")
      (basePath ++ ".description") with ⟨dv, dis⟩
    rcases hq : validateRequiredNumber fields ("quantity")
      (basePath ++ ".quantity") false false with ⟨qv, qis⟩
    rcases hp : validateRequiredNumber fields ("unitPrice")
      (basePath ++ ".unitPrice") false true with ⟨pv, pis⟩
    have hdn := validateRequiredString_none_ne_nil fields ("description")
      (basePath ++ ".description")
    have hqn := validateRequiredNumber_none_ne_nil fields ("quantity")
      (basePath ++ ".quantity") false false
    have hpn := validateRequiredNumber_none_ne_nil fields ("unitPrice")
      (basePath ++ ".unitPrice") false true
    rw [hd] at hdn
    rw [hq] at hqn
    rw [hp] at hpn
    simp only [hd, hq, hp]
    cases dv <;> cases qv <;> cases pv <;> simp_all

/-- A failed line-item-array loop always pushes an issue. -/
theorem validateLineItemsAux_none_ne_nil (basePath : String) (xs : List Value)
    (i : ℕ) :
    (validateLineItemsAux basePath xs i).1 = none →
      (validateLineItemsAux basePath xs i).2 ≠ [] := by
  induction xs generalizing i with
  | nil => simp [validateLineItemsAux]
  | cons v rest ih =>
    rcases hv : validateLineItem v (basePath ++ "[" ++ natDecimal i ++ "]")
      with ⟨vv, vis⟩
    rcases hr : validateLineItemsAux basePath rest (i + 1) with ⟨rv, ris⟩
    have hvn := validateLineItem_none_ne_nil v (basePath ++ "[" ++ natDecimal i ++ "]")
    have hrn := ih (i + 1)
    rw [hv] at hvn
    rw [hr] at hrn
    simp only [validateLineItemsAux, hv, hr]
    cases vv <;> cases rv <;> simp_all

/-- A failed line-items validation always pushes an issue. -/
theorem validateLineItems_none_ne_nil (input : Value) (basePath : String) :
    (validateLineItems input basePath).1 = none →
      (validateLineItems input basePath).2 ≠ [] := by
  cases input <;> simp [validateLineItems, mkIssue, mkIssueHint]
  case vArr xs =>
    cases xs with
    | nil => simp [mkIssueHint]
    | cons x rest => exact validateLineItemsAux_none_ne_nil basePath (x :: rest) 0

/-- C9 (implicit): every failed validation carries at least one
diagnostic — whenever `validateDraft` returns `err issues`, the list
`issues` is non-empty, because every path on which a top-level group
validator returns `undefined` also pushes at least one issue. -/
theorem validateDraft_err_nonempty (input : Value) (issues : List Issue)
    (h : validateDraft input = ValidationResult.err issues) : issues ≠ [] := by
  cases input <;>
    try (simp only [validateDraft] at h; injection h with h2; subst h2; simp)
  rename_i fields
  revert h
  simp only [validateDraft]
  split
  · split
    · intro hok
      cases hok
    · rename_i hnil
      intro h
      injection h with h2
      subst h2
      exact hnil
  · rename_i hcontra
    intro h
    injection h with h2
    subst h2
    rcases hbv : (validateBusiness (getField fields ("business")) ("business")).1
        with _ | b <;>
      rcases hcv : (validateClient (getField fields ("client")) ("client")).1
        with _ | c <;>
      rcases hhv : (validateHeader (getField fields ("header")) ("header")).1
        with _ | hh <;>
      rcases hlv : (validateLineItems (getField fields ("lineItems")) ("lineItems")).1
        with _ | li <;>
    first
      | exact (hcontra _ _ _ _ hbv hcv hhv hlv).elim
      | (intro hc
         simp only [List.append_eq_nil] at hc
         first
           | exact validateBusiness_none_ne_nil _ _ hbv (by tauto)
           | exact validateClient_none_ne_nil _ _ hcv (by tauto)
           | exact validateHeader_none_ne_nil _ _ hhv (by tauto)
           | exact validateLineItems_none_ne_nil _ _ hlv (by tauto))

/-- Witness for C9: a non-object input yields one issue. -/
theorem validateDraft_err_nonempty_witness :
    (match validateDraft Value.vNull with
      | ValidationResult.err issues => issues
      | ValidationResult.ok _ => []) ≠ [] :=
  validateDraft_err_nonempty Value.vNull
    [mkIssue IssueCode.INVALID_TYPE ("") ("Input must be an object")] rfl

/-- Scenario-6-style input: missing business email, a negative
unitPrice on line item 0, and a missing description on line item 2. -/
def scenario6Input : Value :=
  Value.vObj
    [("business", Value.vObj
        [("name", Value.vStr ("Acme")), ("address", Value.vStr ("1 Road"))]),
     ("client", Value.vObj
        [("name", Value.vStr ("Client")), ("address", Value.vStr ("2 Road"))]),
     ("header", Value.vObj
        [("invoiceNumber", Value.vStr ("INV-1")),
         ("issueDate", Value.vStr ("2025-01-15")),
         ("currency", Value.vStr ("EUR"))]),
     ("lineItems", Value.vArr
        [Value.vObj
           [("description", Value.vStr ("A")),
            ("quantity", Value.vNum (JsNum.fin 1)),
            ("unitPrice", Value.vNum (JsNum.fin (-5)))],
         Value.vObj
           [("description", Value.vStr ("B")),
            ("quantity", Value.vNum (JsNum.fin 2)),
            ("unitPrice", Value.vNum (JsNum.fin 3))],
         Value.vObj
           [("quantity", Value.vNum (JsNum.fin 1)),
            ("unitPrice", Value.vNum (JsNum.fin 1))]])]

/-- C2: validation accumulates every issue across the whole input
(except for a non-object top level): for every object input the issue
list of a failed validation is exactly the concatenation of the four
group validators' issue lists; within the line-item array the loop
collects, in order, the issues of every indexed element, so later items
are validated even after an earlier item failed; and on a concrete
input with a missing business email, a negative unitPrice on item 0 and
a missing description on item 2, all three issues are reported. -/
theorem validateDraft_accumulates_all_issues :
    (∀ fields issues, validateDraft (Value.vObj fields) = ValidationResult.err issues →
      issues =
        (validateBusiness (getField fields ("business")) ("business")).2 ++
          (validateClient (getField fields ("client")) ("client")).2 ++
          (validateHeader (getField fields ("header")) ("header")).2 ++
          (validateLineItems (getField fields ("lineItems")) ("lineItems")).2) ∧
    (∀ basePath xs i,
      (validateLineItemsAux basePath xs i).2 =
        (List.range xs.length).flatMap
          (fun k => (validateLineItem (xs.getD k Value.vNull)
            (basePath ++ "[" ++ natDecimal (i + k) ++ "]")).2)) ∧
    validateDraft scenario6Input =
      ValidationResult.err
        [mkIssue IssueCode.MISSING_REQUIRED ("business.email") ("email is required"),
         mkIssueHint IssueCode.NEGATIVE_NUMBER ("lineItems[0].unitPrice")
           ("unitPrice cannot be negative") ("Use a positive number"),
         mkIssue IssueCode.MISSING_REQUIRED ("lineItems[2].description")
           ("description is required")] := by
  refine ⟨?_, ?_, by decide⟩
  · intro fields issues h
    revert h
    simp only [validateDraft]
    split
    · split
      · intro hok
        cases hok
      · intro h
        injection h with h2
        exact h2.symm
    · intro h
      injection h with h2
      exact h2.symm
  · intro basePath xs
    induction xs with
    | nil => intro i; simp [validateLineItemsAux]
    | cons v rest ih =>
      intro i
      simp only [validateLineItemsAux, List.length_cons, List.range_succ_eq_map,
        List.flatMap_cons, List.flatMap_map]
      rw [ih (i + 1)]
      simp only [Function.comp, List.getD_cons_succ, List.getD_cons_zero,
        Nat.add_zero, Nat.add_succ, Nat.succ_add]

/-- Witness for C2 at the Scenario-6 input: the issue list equals the
concatenation of the group validators' lists and contains the three
expected issues. -/
theorem validateDraft_accumulates_all_issues_witness :
    (match validateDraft scenario6Input with
      | ValidationResult.err issues => issues
      | ValidationResult.ok _ => []) =
      (validateBusiness (getField
        [("business", Value.vObj
            [("name", Value.vStr ("Acme")), ("address", Value.vStr ("1 Road"))])]
        ("business")) ("business")).2 ++ [] ++ [] ++
        [mkIssueHint IssueCode.NEGATIVE_NUMBER ("lineItems[0].unitPrice")
           ("unitPrice cannot be negative") ("Use a positive number"),
         mkIssue IssueCode.MISSING_REQUIRED ("lineItems[2].description")
           ("description is required")] := by
  rw [validateDraft_accumulates_all_issues.2.2]
  decide

/-- The digit renderer never returns an empty list (for positive fuel). -/
theorem natDecimalAux_ne_nil (fuel n : ℕ) : natDecimalAux (fuel + 1) n ≠ [] := by
  simp only [natDecimalAux]
  split_ifs <;> simp

/-- Decimal rendering of a natural number is never empty. -/
theorem natDecimal_ne_empty (n : ℕ) : natDecimal n ≠ "" := by
  unfold natDecimal
  intro h
  rw [String.ext_iff] at h
  exact natDecimalAux_ne_nil n n h

/-- `toFixed(0)` output is never empty. -/
theorem jsToFixed0_ne_empty (n : JsNum) : jsToFixed0 n ≠ "" := by
  cases n with
  | nan => simp [jsToFixed0]
  | inf pos => cases pos <;> simp [jsToFixed0]
  | fin q =>
    simp only [jsToFixed0]
    split_ifs
    · intro h
      rw [String.ext_iff, String.data_append] at h
      simp at h
    · exact natDecimal_ne_empty _

/-- Placeholder formatted line item used only as a `getD` default. -/
def dummyFormattedLineItem : FormattedLineItem :=
  { description := "", quantity := "", unitPrice := "", amount := "", unit := "" }

/-- C8: on the formatted output every optional field that is absent on
the draft is the empty string (it is a `String`, so never
null/undefined), and every optional field present on the draft is
rendered with its (non-empty) content: raw strings pass through
verbatim, a present due date renders through the date formatter to a
non-empty string, and a present tax rate renders as a non-empty
`toFixed(0)` percentage. -/
theorem formatInvoice_optional_fields (invoice : InvoiceComputed)
    (options : FormatOptions) :
    ((invoice.business.phone = none →
        (formatInvoice invoice options).business.phone = "") ∧
     (∀ s, invoice.business.phone = some s →
        (formatInvoice invoice options).business.phone = s) ∧
     (invoice.business.logoUrl = none →
        (formatInvoice invoice options).business.logoUrl = "") ∧
     (∀ s, invoice.business.logoUrl = some s →
        (formatInvoice invoice options).business.logoUrl = s) ∧
     (invoice.business.taxId = none →
        (formatInvoice invoice options).business.taxId = "") ∧
     (∀ s, invoice.business.taxId = some s →
        (formatInvoice invoice options).business.taxId = s) ∧
     (invoice.client.email = none →
        (formatInvoice invoice options).client.email = "") ∧
     (∀ s, invoice.client.email = some s →
        (formatInvoice invoice options).client.email = s)) ∧
    ((invoice.header.dueDate = none →
        (formatInvoice invoice options).header.dueDate = "") ∧
     (∀ s, invoice.header.dueDate = some s → s ≠ "" →
        (formatInvoice invoice options).header.dueDate ≠ "") ∧
     (invoice.header.taxRate = none →
        (formatInvoice invoice options).header.taxRateDisplay = "") ∧
     (∀ r, invoice.header.taxRate = some r →
        (formatInvoice invoice options).header.taxRateDisplay ≠ "") ∧
     (invoice.header.notes = none →
        (formatInvoice invoice options).header.notes = "") ∧
     (∀ s, invoice.header.notes = some s →
        (formatInvoice invoice options).header.notes = s)) ∧
    (∀ k, k < invoice.lineItems.length →
      ((formatInvoice invoice options).lineItems.getD k dummyFormattedLineItem).unit =
        (invoice.lineItems.getD k dummyLineItem).unit.getD "") := by
  refine ⟨⟨?_, ?_, ?_, ?_, ?_, ?_, ?_, ?_⟩, ⟨?_, ?_, ?_, ?_, ?_, ?_⟩, ?_⟩
  · intro h
    simp [formatInvoice, formatBusiness, h]
  · intro s h
    simp [formatInvoice, formatBusiness, h]
  · intro h
    simp [formatInvoice, formatBusiness, h]
  · intro s h
    simp [formatInvoice, formatBusiness, h]
  · intro h
    simp [formatInvoice, formatBusiness, h]
  · intro s h
    simp [formatInvoice, formatBusiness, h]
  · intro h
    simp [formatInvoice, formatClient, h]
  · intro s h
    simp [formatInvoice, formatClient, h]
  · intro h
    simp [formatInvoice, formatHeader, h]
  · intro s h hne
    simp [formatInvoice, formatHeader, h, hne, intlDateString]
  · intro h
    simp [formatInvoice, formatHeader, h]
  · intro r h
    simp only [formatInvoice, formatHeader]
    rw [h]
    exact jsToFixed0_ne_empty _
  · intro h
    simp [formatInvoice, formatHeader, h]
  · intro s h
    simp [formatInvoice, formatHeader, h]
  · intro k hk
    have hk2 : k < (formatLineItems invoice.lineItems invoice.computed.lineItemAmounts
        (options.locale.getD (getLocaleForCurrency invoice.header.currency))
        invoice.header.currency
        (options.currencyDisplay.getD CurrencyDisplay.symbol)).length := by
      simp [formatLineItems, List.length_mapIdx, hk]
    simp only [formatInvoice]
    rw [List.getD_eq_getElem _ _ hk2, List.getD_eq_getElem _ _ hk]
    have := List.get_mapIdx invoice.lineItems
      (fun index item =>
        ({ description := item.description,
           quantity := intlNumberString
             (options.locale.getD (getLocaleForCurrency invoice.header.currency))
             item.quantity,
           unitPrice := intlCurrencyString
             (options.locale.getD (getLocaleForCurrency invoice.header.currency))
             invoice.header.currency
             (options.currencyDisplay.getD CurrencyDisplay.symbol) item.unitPrice,
           amount := intlCurrencyString
             (options.locale.getD (getLocaleForCurrency invoice.header.currency))
             invoice.header.currency
             (options.currencyDisplay.getD CurrencyDisplay.symbol)
             (invoice.computed.lineItemAmounts.getD index (JsNum.fin 0)),
           unit := item.unit.getD ("") } : FormattedLineItem)) k hk
    simp only [formatLineItems, List.get_eq_getElem] at this ⊢
    rw [this]

/-- Witness for C8 at a concrete computed invoice: absent phone and
notes render as `""`; the present due date and tax rate render
non-empty. -/
theorem formatInvoice_optional_fields_witness :
    (formatInvoice (computeInvoice sampleDraft) {}).business.phone = "" ∧
    (formatInvoice (computeInvoice sampleDraft) {}).header.dueDate ≠ "" ∧
    (formatInvoice (computeInvoice sampleDraft) {}).header.taxRateDisplay ≠ "" ∧
    (formatInvoice (computeInvoice sampleDraft) {}).header.notes = "" := by
  have h := formatInvoice_optional_fields (computeInvoice sampleDraft) {}
  exact ⟨h.1.1 rfl,
    h.2.1.2.1 ("2025-02-15") rfl (by decide),
    h.2.1.2.2.2.1 (JsNum.fin (19/100)) rfl,
    h.2.1.2.2.2.2.1 rfl⟩

/-- The doubly-trimmed character list is stable under another leading
trim: its head (when present) is a non-whitespace character inherited
from the left-trimmed list. -/
theorem trimList_leftStable (l : List Char) :
    List.dropWhile isJsWhitespace
        (List.rdropWhile isJsWhitespace (List.dropWhile isJsWhitespace l)) =
      List.rdropWhile isJsWhitespace (List.dropWhile isJsWhitespace l) := by
  rw [ List.dropWhile_eq_self_iff]
  intro hl
  have hpre := List.rdropWhile_prefix isJsWhitespace (List.dropWhile isJsWhitespace l)
  have hlen : 0 < (List.dropWhile isJsWhitespace l).length :=
    lt_of_lt_of_le hl hpre.length_le
  rw [List.get_eq_getElem, hpre.getElem hl]
  have h2 := List.dropWhile_get_zero_not isJsWhitespace l hlen
  rw [List.get_eq_getElem] at h2
  exact h2

/-- JavaScript `trim` is idempotent. -/
theorem jsTrim_idem (s : String) : jsTrim (jsTrim s) = jsTrim s := by
  unfold jsTrim
  congr 1
  rw [trimList_leftStable, List.rdropWhile_idempotent]

/-- Digits are not JavaScript whitespace. -/
theorem isJsWhitespace_of_isDigit (c : Char) (h : c.isDigit = true) :
    isJsWhitespace c = false := by
  by_contra hw
  simp only [Bool.not_eq_false, isJsWhitespace, Bool.or_eq_true,
    decide_eq_true_eq] at hw
  rcases hw with ((((((rfl | rfl) | rfl) | rfl) | rfl) | rfl) | rfl) | rfl <;>
    exact absurd h (by decide)

/-- A successful required-string validation returns a trimmed,
non-empty string. -/
theorem validateRequiredString_ok (obj : List (String × Value)) (f p s : String)
    (h : validateRequiredString obj f p = (some s, [])) :
    jsTrim s = s ∧ s ≠ "" := by
  unfold validateRequiredString at h
  cases hget : getField obj f <;> rw [hget] at h
  case vStr s0 =>
    dsimp only at h
    split_ifs at h with hne
    · simp at h
    · rw [Prod.mk.injEq] at h
      obtain ⟨h1, -⟩ := h
      obtain rfl := Option.some_inj.mp h1
      exact ⟨jsTrim_idem s0, hne⟩
  all_goals simp at h

/-- A trimmed non-empty string revalidates to itself. -/
theorem validateRequiredString_fix (obj : List (String × Value)) (f p s : String)
    (hs : jsTrim s = s) (hne : s ≠ "") (hget : getField obj f = Value.vStr s) :
    validateRequiredString obj f p = (some s, []) := by
  unfold validateRequiredString
  rw [hget]
  simp [hs, hne]

/-- A successful present optional-string validation returns a trimmed,
non-empty string and no issues. -/
theorem validateOptionalString_ok (obj : List (String × Value)) (f p s : String)
    (is : List Issue)
    (h : validateOptionalString obj f p = (some s, is)) :
    jsTrim s = s ∧ s ≠ "" ∧ is = [] := by
  unfold validateOptionalString at h
  cases hget : getField obj f <;> rw [hget] at h
  case vStr s0 =>
    dsimp only at h
    split_ifs at h with h0 hne
    · simp at h
    · simp at h
    · rw [Prod.mk.injEq] at h
      obtain ⟨h1, h2⟩ := h
      obtain rfl := Option.some_inj.mp h1
      exact ⟨jsTrim_idem s0, hne, h2.symm⟩
  all_goals simp at h

/-- A trimmed non-empty string revalidates to itself (optional case). -/
theorem validateOptionalString_fix (obj : List (String × Value)) (f p s : String)
    (hs : jsTrim s = s) (hne : s ≠ "") (hget : getField obj f = Value.vStr s) :
    validateOptionalString obj f p = (some s, []) := by
  unfold validateOptionalString
  rw [hget]
  simp [hs, hne]

/-- An absent optional string field validates to `none` silently. -/
theorem validateOptionalString_absent (obj : List (String × Value)) (f p : String)
    (hget : getField obj f = Value.vUndefined) :
    validateOptionalString obj f p = (none, []) := by
  unfold validateOptionalString
  rw [hget]

/-- The sign/zero checks pass a value through unchanged, and passing
does not depend on the message parameters. -/
theorem validateNumberValue_ok (v : JsNum) (f p : String) (an az : Bool)
    (n : JsNum) (is : List Issue)
    (h : validateNumberValue v f p an az = (some n, is)) :
    n = v ∧ is = [] ∧
      ∀ f2 p2, validateNumberValue v f2 p2 an az = (some v, []) := by
  unfold validateNumberValue at h ⊢
  split_ifs at h with h1 h2
  · simp at h
  · simp at h
  · rw [Prod.mk.injEq] at h
    obtain ⟨h3, h4⟩ := h
    obtain rfl := Option.some_inj.mp h3
    refine ⟨rfl, h4.symm, fun f2 p2 => ?_⟩
    rw [if_neg h1, if_neg h2]

/-- A successfully validated required number revalidates to itself
when presented as a native number. -/
theorem validateRequiredNumber_roundtrip (obj : List (String × Value))
    (f p : String) (an az : Bool) (n : JsNum)
    (h : validateRequiredNumber obj f p an az = (some n, []))
    (obj2 : List (String × Value)) (p2 : String)
    (hget : getField obj2 f = Value.vNum n) :
    validateRequiredNumber obj2 f p2 an az = (some n, []) := by
  unfold validateRequiredNumber at h
  cases hg : getField obj f <;> rw [hg] at h
  case vNum n0 =>
    dsimp only at h
    split_ifs at h with hnan
    · simp at h
    · obtain ⟨rfl, -, hfix⟩ := validateNumberValue_ok n0 f p an az n [] h
      unfold validateRequiredNumber
      rw [hget]
      dsimp only
      rw [if_neg hnan]
      exact hfix f p2
  case vStr s0 =>
    dsimp only at h
    split_ifs at h with hnan
    · simp at h
    · obtain ⟨rfl, -, hfix⟩ := validateNumberValue_ok (jsParseFloat s0) f p an az n [] h
      unfold validateRequiredNumber
      rw [hget]
      dsimp only
      rw [if_neg hnan]
      exact hfix f p2
  all_goals simp at h

/-- The optional-number range checks pass a value through unchanged,
independently of the message parameters. -/
theorem validateOptionalNumChecks_ok (v : JsNum) (f p : String) (an : Bool)
    (mn mx : Option ℚ) (n : JsNum) (is : List Issue)
    (h : validateOptionalNumChecks v f p an mn mx = (some n, is)) :
    n = v ∧ is = [] ∧
      ∀ f2 p2, validateOptionalNumChecks v f2 p2 an mn mx = (some v, []) := by
  unfold validateOptionalNumChecks at h ⊢
  split_ifs at h <;> cases mn <;> cases mx <;> simp_all <;>
    split_ifs at h <;> simp_all

/-- A successfully validated present optional number revalidates to
itself when presented as a native number. -/
theorem validateOptionalNumber_roundtrip (obj : List (String × Value))
    (f p : String) (an : Bool) (mn mx : Option ℚ) (n : JsNum)
    (h : validateOptionalNumber obj f p an mn mx = (some n, []))
    (obj2 : List (String × Value)) (p2 : String)
    (hget : getField obj2 f = Value.vNum n) :
    validateOptionalNumber obj2 f p2 an mn mx = (some n, []) := by
  unfold validateOptionalNumber at h
  cases hg : getField obj f <;> rw [hg] at h
  case vNum n0 =>
    dsimp only at h
    split_ifs at h with hnan
    · simp at h
    · obtain ⟨rfl, -, hfix⟩ := validateOptionalNumChecks_ok n0 f p an mn mx n [] h
      unfold validateOptionalNumber
      rw [hget]
      dsimp only
      rw [if_neg hnan]
      exact hfix f p2
  case vStr s0 =>
    dsimp only at h
    split_ifs at h with hemp hnan
    · simp at h
    · simp at h
    · obtain ⟨rfl, -, hfix⟩ :=
        validateOptionalNumChecks_ok (jsParseFloat s0) f p an mn mx n [] h
      have hnan2 : (jsParseFloat s0).isNaN ≠ true := hnan
      unfold validateOptionalNumber
      rw [hget]
      dsimp only
      rw [if_neg hnan2]
      exact hfix f p2
  all_goals simp at h

/-- An absent optional number field validates to `none` silently. -/
theorem validateOptionalNumber_absent (obj : List (String × Value))
    (f p : String) (an : Bool) (mn mx : Option ℚ)
    (hget : getField obj f = Value.vUndefined) :
    validateOptionalNumber obj f p an mn mx = (none, []) := by
  unfold validateOptionalNumber
  rw [hget]

/-- A string in `YYYY-MM-DD` shape is already trimmed and non-empty. -/
theorem isoShape_trim (s : String) (h : isoShape s = true) :
    jsTrim s = s ∧ s ≠ "" := by
  unfold isoShape at h
  split at h
  case h_2 => simp at h
  case h_1 q1 q2 q3 q4 d1 q5 q6 d2 q7 q8 heq =>
    simp only [Bool.and_eq_true, decide_eq_true_eq] at h
    have ha : q1.isDigit = true := by tauto
    have hz : q8.isDigit = true := by tauto
    constructor
    · rw [String.ext_iff]
      simp only [jsTrim]
      rw [heq]
      rw [List.dropWhile_cons]
      rw [if_neg (by simp [isJsWhitespace_of_isDigit q1 ha])]
      rw [show (q1 :: q2 :: q3 :: q4 :: d1 :: q5 :: q6 :: d2 :: q7 :: q8 ::
          ([] : List Char)) =
          [q1, q2, q3, q4, d1, q5, q6, d2, q7] ++ [q8] from rfl]
      rw [List.rdropWhile_concat_neg _ _ _
        (by simp [isJsWhitespace_of_isDigit q8 hz])]
    · intro he2
      rw [he2] at heq
      simp at heq

/-- A validated ISO date string revalidates to itself. -/
theorem validateIsoDate_fix (obj : List (String × Value)) (f p : String)
    (required : Bool) (s : String)
    (hshape : isoShape s = true)
    (hparse : jsDateParseIso s = some (isoComponents s))
    (hget : getField obj f = Value.vStr s) :
    validateIsoDate obj f p required = (some s, []) := by
  obtain ⟨htrim, hne⟩ := isoShape_trim s hshape
  unfold validateIsoDate
  rw [hget]
  dsimp only
  rw [if_neg hne]
  rw [htrim]
  rw [if_neg (by simp [hshape])]
  rw [hparse]
  simp

/-- An absent optional date field validates to `none` silently. -/
theorem validateIsoDate_absent (obj : List (String × Value)) (f p : String)
    (hget : getField obj f = Value.vUndefined) :
    validateIsoDate obj f p false = (none, []) := by
  unfold validateIsoDate
  rw [hget]
  simp

/-- A successful date validation from a string input yields a string in
ISO shape whose components survive date construction. -/
theorem validateIsoDate_ok_str (obj : List (String × Value)) (f p : String)
    (required : Bool) (s0 s : String)
    (hg : getField obj f = Value.vStr s0)
    (h : validateIsoDate obj f p required = (some s, [])) :
    isoShape s = true ∧ jsDateParseIso s = some (isoComponents s) := by
  unfold validateIsoDate at h
  rw [hg] at h
  dsimp only at h
  split_ifs at h with hc1 hc2 hc3 <;> try simp at h
  rcases hp : jsDateParseIso (jsTrim s0) with _ | c <;> rw [hp] at h <;>
    dsimp only at h
  · simp at h
  · split_ifs at h with hc4 <;> try simp at h
    subst h
    exact ⟨hc3, by rw [hp, hc4]⟩

/-- Every supported currency code is trimmed, non-empty and a fixpoint
of uppercasing. -/
theorem supported_currency_facts :
    ∀ c ∈ SUPPORTED_CURRENCIES, jsTrim c = c ∧ c ≠ "" ∧ jsToUpper c = c := by
  decide

/-- A validated currency code revalidates to itself. -/
theorem validateCurrency_roundtrip (obj : List (String × Value)) (f p cur : String)
    (h : validateCurrency obj f p = (some cur, []))
    (obj2 : List (String × Value)) (p2 : String)
    (hget : getField obj2 f = Value.vStr cur) :
    validateCurrency obj2 f p2 = (some cur, []) := by
  unfold validateCurrency at h
  rcases hr : validateRequiredString obj f p with ⟨rv, ris⟩
  rw [hr] at h
  cases rv with
  | none => simp at h
  | some v =>
    dsimp only at h
    split_ifs at h with hmem
    · rw [Prod.mk.injEq] at h
      obtain ⟨h1, -⟩ := h
      obtain rfl := Option.some_inj.mp h1
      obtain ⟨ht, hne, hup⟩ := supported_currency_facts _ hmem
      unfold validateCurrency
      rw [validateRequiredString_fix obj2 f p2 _ ht hne hget]
      dsimp only
      rw [hup]
      rw [if_pos hmem]
    · simp at h

/-- Field lookups on a re-serialized business record. -/
theorem businessFields_lookups (b : Business) :
    getField (businessFields b) ("name") = Value.vStr b.name ∧
    getField (businessFields b) ("address") = Value.vStr b.address ∧
    getField (businessFields b) ("email") = Value.vStr b.email ∧
    getField (businessFields b) ("phone") =
      (match b.phone with | some s => Value.vStr s | none => Value.vUndefined) ∧
    getField (businessFields b) ("logoUrl") =
      (match b.logoUrl with | some s => Value.vStr s | none => Value.vUndefined) ∧
    getField (businessFields b) ("taxId") =
      (match b.taxId with | some s => Value.vStr s | none => Value.vUndefined) := by
  rcases b with ⟨n, a, e, ph, lo, tx⟩
  cases ph <;> cases lo <;> cases tx <;>
    simp [businessFields, optEntry, getField, List.lookup]

/-- Field lookups on a re-serialized client record. -/
theorem clientFields_lookups (c : Client) :
    getField (clientFields c) ("name") = Value.vStr c.name ∧
    getField (clientFields c) ("address") = Value.vStr c.address ∧
    getField (clientFields c) ("email") =
      (match c.email with | some s => Value.vStr s | none => Value.vUndefined) := by
  rcases c with ⟨n, a, e⟩
  cases e <;> simp [clientFields, optEntry, getField, List.lookup]

/-- Field lookups on a re-serialized header record. -/
theorem headerFields_lookups (h : InvoiceHeader) :
    getField (headerFields h) ("invoiceNumber") = Value.vStr h.invoiceNumber ∧
    getField (headerFields h) ("issueDate") = Value.vStr h.issueDate ∧
    getField (headerFields h) ("dueDate") =
      (match h.dueDate with | some s => Value.vStr s | none => Value.vUndefined) ∧
    getField (headerFields h) ("currency") = Value.vStr h.currency ∧
    getField (headerFields h) ("taxRate") =
      (match h.taxRate with | some r => Value.vNum r | none => Value.vUndefined) ∧
    getField (headerFields h) ("notes") =
      (match h.notes with | some s => Value.vStr s | none => Value.vUndefined) := by
  rcases h with ⟨inv, isd, dd, cur, tr, no⟩
  cases dd <;> cases tr <;> cases no <;>
    simp [headerFields, optEntry, getField, List.lookup]

/-- Field lookups on a re-serialized line item. -/
theorem lineItemFields_lookups (li : LineItem) :
    getField (lineItemFields li) ("description") = Value.vStr li.description ∧
    getField (lineItemFields li) ("quantity") = Value.vNum li.quantity ∧
    getField (lineItemFields li) ("unitPrice") = Value.vNum li.unitPrice ∧
    getField (lineItemFields li) ("unit") =
      (match li.unit with | some s => Value.vStr s | none => Value.vUndefined) := by
  rcases li with ⟨d, q, u, un⟩
  cases un <;> simp [lineItemFields, optEntry, getField, List.lookup]

/-- A validated business re-serializes and revalidates to itself. -/
theorem validateBusiness_roundtrip (v : Value) (p : String) (b : Business)
    (h : validateBusiness v p = (some b, [])) (p2 : String) :
    validateBusiness (businessToValue b) p2 = (some b, []) := by
  cases v
  case vUndefined => simp [validateBusiness] at h
  case vNull => simp [validateBusiness] at h
  case vBool => simp [validateBusiness] at h
  case vNum => simp [validateBusiness] at h
  case vStr => simp [validateBusiness] at h
  case vArr => simp [validateBusiness] at h
  case vDate => simp [validateBusiness] at h
  case vObj fields =>
    unfold validateBusiness at h
    dsimp only at h
    rcases hn : validateRequiredString fields ("name") (p ++ ".name") with ⟨nv, nis⟩
    rcases ha : validateRequiredString fields ("address") (p ++ ".address") with ⟨av, ais⟩
    rcases he : validateRequiredString fields ("email") (p ++ ".email") with ⟨ev, eis⟩
    rcases hph : validateOptionalString fields ("phone") (p ++ ".phone") with ⟨pv, pis⟩
    rcases hlo : validateOptionalString fields ("logoUrl") (p ++ ".logoUrl") with ⟨lv, lis⟩
    rcases htx : validateOptionalString fields ("taxId") (p ++ ".taxId") with ⟨tv, tis⟩
    rw [hn, ha, he, hph, hlo, htx] at h
    cases nv <;> cases av <;> cases ev <;> try simp at h
    case some.some.some n a e =>
      obtain ⟨rfl, hn0, ha0, he0, hp0, hl0, ht0⟩ := h
      obtain ⟨g1, g2, g3, g4, g5, g6⟩ :=
        businessFields_lookups
          { name := n, address := a, email := e, phone := pv, logoUrl := lv, taxId := tv }
      obtain ⟨tn, nn⟩ := validateRequiredString_ok fields ("name") (p ++ ".name") n
        (by rw [hn, hn0])
      obtain ⟨ta, na⟩ := validateRequiredString_ok fields ("address") (p ++ ".address") a
        (by rw [ha, ha0])
      obtain ⟨te, ne2⟩ := validateRequiredString_ok fields ("email") (p ++ ".email") e
        (by rw [he, he0])
      have e1 := validateRequiredString_fix _ ("name") (p2 ++ ".name") n tn nn g1
      have e2 := validateRequiredString_fix _ ("address") (p2 ++ ".address") a ta na g2
      have e3 := validateRequiredString_fix _ ("email") (p2 ++ ".email") e te ne2 g3
      have e4 : validateOptionalString
          (businessFields
            { name := n, address := a, email := e, phone := pv, logoUrl := lv, taxId := tv })
          ("phone") (p2 ++ ".phone") = (pv, []) := by
        cases pv with
        | none => exact validateOptionalString_absent _ _ _ g4
        | some s =>
          obtain ⟨ts, ns, -⟩ := validateOptionalString_ok fields ("phone")
            (p ++ ".phone") s pis hph
          exact validateOptionalString_fix _ _ _ s ts ns g4
      have e5 : validateOptionalString
          (businessFields
            { name := n, address := a, email := e, phone := pv, logoUrl := lv, taxId := tv })
          ("logoUrl") (p2 ++ ".logoUrl") = (lv, []) := by
        cases lv with
        | none => exact validateOptionalString_absent _ _ _ g5
        | some s =>
          obtain ⟨ts, ns, -⟩ := validateOptionalString_ok fields ("logoUrl")
            (p ++ ".logoUrl") s lis hlo
          exact validateOptionalString_fix _ _ _ s ts ns g5
      have e6 : validateOptionalString
          (businessFields
            { name := n, address := a, email := e, phone := pv, logoUrl := lv, taxId := tv })
          ("taxId") (p2 ++ ".taxId") = (tv, []) := by
        cases tv with
        | none => exact validateOptionalString_absent _ _ _ g6
        | some s =>
          obtain ⟨ts, ns, -⟩ := validateOptionalString_ok fields ("taxId")
            (p ++ ".taxId") s tis htx
          exact validateOptionalString_fix _ _ _ s ts ns g6
      unfold validateBusiness businessToValue
      try dsimp only
      rw [e1, e2, e3, e4, e5, e6]
      simp

/-- A validated client re-serializes and revalidates to itself. -/
theorem validateClient_roundtrip (v : Value) (p : String) (c : Client)
    (h : validateClient v p = (some c, [])) (p2 : String) :
    validateClient (clientToValue c) p2 = (some c, []) := by
  cases v
  case vUndefined => simp [validateClient] at h
  case vNull => simp [validateClient] at h
  case vBool => simp [validateClient] at h
  case vNum => simp [validateClient] at h
  case vStr => simp [validateClient] at h
  case vArr => simp [validateClient] at h
  case vDate => simp [validateClient] at h
  case vObj fields =>
    unfold validateClient at h
    dsimp only at h
    rcases hn : validateRequiredString fields ("name") (p ++ ".name") with ⟨nv, nis⟩
    rcases ha : validateRequiredString fields ("address") (p ++ ".address") with ⟨av, ais⟩
    rcases he : validateOptionalString fields ("email") (p ++ ".email") with ⟨ev, eis⟩
    rw [hn, ha, he] at h
    cases nv <;> cases av <;> try simp at h
    case some.some n a =>
      obtain ⟨rfl, hn0, ha0, he0⟩ := h
      obtain ⟨g1, g2, g3⟩ :=
        clientFields_lookups { name := n, address := a, email := ev }
      obtain ⟨tn, nn⟩ := validateRequiredString_ok fields ("name") (p ++ ".name") n
        (by rw [hn, hn0])
      obtain ⟨ta, na⟩ := validateRequiredString_ok fields ("address") (p ++ ".address") a
        (by rw [ha, ha0])
      have e1 := validateRequiredString_fix _ ("name") (p2 ++ ".name") n tn nn g1
      have e2 := validateRequiredString_fix _ ("address") (p2 ++ ".address") a ta na g2
      have e3 : validateOptionalString
          (clientFields { name := n, address := a, email := ev })
          ("email") (p2 ++ ".email") = (ev, []) := by
        cases ev with
        | none => exact validateOptionalString_absent _ _ _ g3
        | some s =>
          obtain ⟨ts, ns, -⟩ := validateOptionalString_ok fields ("email")
            (p ++ ".email") s eis he
          exact validateOptionalString_fix _ _ _ s ts ns g3
      unfold validateClient clientToValue
      try dsimp only
      rw [e1, e2, e3]
      simp

/-- A validated line item re-serializes and revalidates to itself. -/
theorem validateLineItem_roundtrip (v : Value) (p : String) (li : LineItem)
    (h : validateLineItem v p = (some li, [])) (p2 : String) :
    validateLineItem (lineItemToValue li) p2 = (some li, []) := by
  cases v
  case vUndefined => simp [validateLineItem] at h
  case vNull => simp [validateLineItem] at h
  case vBool => simp [validateLineItem] at h
  case vNum => simp [validateLineItem] at h
  case vStr => simp [validateLineItem] at h
  case vArr => simp [validateLineItem] at h
  case vDate => simp [validateLineItem] at h
  case vObj fields =>
    unfold validateLineItem at h
    dsimp only at h
    rcases hd : validateRequiredString fields ("description") (p ++ ".description")
      with ⟨dv, dis⟩
    rcases hq : validateRequiredNumber fields ("quantity") (p ++ ".quantity")
      false false with ⟨qv, qis⟩
    rcases hup : validateRequiredNumber fields ("unitPrice") (p ++ ".unitPrice")
      false true with ⟨uv, uis⟩
    rcases hun : validateOptionalString fields ("unit") (p ++ ".unit") with ⟨unv, unis⟩
    rw [hd, hq, hup, hun] at h
    cases dv <;> cases qv <;> cases uv <;> try simp at h
    case some.some.some d q u =>
      obtain ⟨rfl, hd0, hq0, hu0, hun0⟩ := h
      obtain ⟨g1, g2, g3, g4⟩ :=
        lineItemFields_lookups { description := d, quantity := q, unitPrice := u, unit := unv }
      obtain ⟨td, nd⟩ := validateRequiredString_ok fields ("description")
        (p ++ ".description") d (by rw [hd, hd0])
      have e1 := validateRequiredString_fix _ ("description") (p2 ++ ".description")
        d td nd g1
      have e2 := validateRequiredNumber_roundtrip fields ("quantity") (p ++ ".quantity")
        false false q (by rw [hq, hq0]) _ (p2 ++ ".quantity") g2
      have e3 := validateRequiredNumber_roundtrip fields ("unitPrice") (p ++ ".unitPrice")
        false true u (by rw [hup, hu0]) _ (p2 ++ ".unitPrice") g3
      have e4 : validateOptionalString
          (lineItemFields { description := d, quantity := q, unitPrice := u, unit := unv })
          ("unit") (p2 ++ ".unit") = (unv, []) := by
        cases unv with
        | none => exact validateOptionalString_absent _ _ _ g4
        | some s =>
          obtain ⟨ts, ns, -⟩ := validateOptionalString_ok fields ("unit")
            (p ++ ".unit") s unis hun
          exact validateOptionalString_fix _ _ _ s ts ns g4
      unfold validateLineItem lineItemToValue
      try dsimp only
      rw [e1, e2, e3, e4]
      simp

/-- A string is a "real ISO date": it matches `YYYY-MM-DD` and its
components survive date construction. Every date string produced by
validating a STRING input satisfies this; a date string produced from a
native date value satisfies it exactly when its year fits in four
digits. -/
def isRealIsoDate (s : String) : Bool :=
  isoShape s && decide (jsDateParseIso s = some (isoComponents s))

/-- A validated header re-serializes and revalidates to itself,
provided its date strings are real ISO dates. -/
theorem validateHeader_roundtrip (v : Value) (p : String) (hd : InvoiceHeader)
    (h : validateHeader v p = (some hd, []))
    (hiss : isRealIsoDate hd.issueDate = true)
    (hdue : ∀ s, hd.dueDate = some s → isRealIsoDate s = true)
    (p2 : String) :
    validateHeader (headerToValue hd) p2 = (some hd, []) := by
  cases v
  case vUndefined => simp [validateHeader] at h
  case vNull => simp [validateHeader] at h
  case vBool => simp [validateHeader] at h
  case vNum => simp [validateHeader] at h
  case vStr => simp [validateHeader] at h
  case vArr => simp [validateHeader] at h
  case vDate => simp [validateHeader] at h
  case vObj fields =>
    unfold validateHeader at h
    dsimp only at h
    rcases hin : validateRequiredString fields ("invoiceNumber")
      (p ++ ".invoiceNumber") with ⟨inv, inis⟩
    rcases his : validateIsoDate fields ("issueDate") (p ++ ".issueDate") true
      with ⟨isv, isis⟩
    rcases hdd : validateIsoDate fields ("dueDate") (p ++ ".dueDate") false
      with ⟨ddv, ddis⟩
    rcases hcu : validateCurrency fields ("currency") (p ++ ".currency")
      with ⟨cuv, cuis⟩
    rcases hta : validateOptionalNumber fields ("taxRate") (p ++ ".taxRate")
      false (some 0) (some 1) with ⟨tav, tais⟩
    rcases hno : validateOptionalString fields ("notes") (p ++ ".notes")
      with ⟨nov, nois⟩
    rw [hin, his, hdd, hcu, hta, hno] at h
    cases inv <;> cases isv <;> cases cuv <;> cases ddv <;> try simp at h
    case some.some.some.none invn isd cur =>
      obtain ⟨rfl, hi0, hs0, hd0, hc0, ht0, hn0⟩ := h
      obtain ⟨g1, g2, g3, g4, g5, g6⟩ :=
        headerFields_lookups
          { invoiceNumber := invn, issueDate := isd, dueDate := none,
            currency := cur, taxRate := tav, notes := nov }
      simp only [isRealIsoDate, Bool.and_eq_true, decide_eq_true_eq] at hiss
      obtain ⟨hsh, hpar⟩ := hiss
      obtain ⟨ti, ni⟩ := validateRequiredString_ok fields ("invoiceNumber")
        (p ++ ".invoiceNumber") invn (by rw [hin, hi0])
      have e1 := validateRequiredString_fix _ ("invoiceNumber")
        (p2 ++ ".invoiceNumber") invn ti ni g1
      have e2 := validateIsoDate_fix _ ("issueDate") (p2 ++ ".issueDate") true
        isd hsh hpar g2
      have e3 := validateIsoDate_absent _ ("dueDate") (p2 ++ ".dueDate") g3
      have e4 := validateCurrency_roundtrip fields ("currency") (p ++ ".currency")
        cur (by rw [hcu, hc0]) _ (p2 ++ ".currency") g4
      have e5 : validateOptionalNumber
          (headerFields
            { invoiceNumber := invn, issueDate := isd, dueDate := none,
              currency := cur, taxRate := tav, notes := nov })
          ("taxRate") (p2 ++ ".taxRate") false (some 0) (some 1) = (tav, []) := by
        cases tav with
        | none => exact validateOptionalNumber_absent _ _ _ _ _ _ g5
        | some r =>
          exact validateOptionalNumber_roundtrip fields _ (p ++ ".taxRate")
            false (some 0) (some 1) r (by rw [hta, ht0]) _ _ g5
      have e6 : validateOptionalString
          (headerFields
            { invoiceNumber := invn, issueDate := isd, dueDate := none,
              currency := cur, taxRate := tav, notes := nov })
          ("notes") (p2 ++ ".notes") = (nov, []) := by
        cases nov with
        | none => exact validateOptionalString_absent _ _ _ g6
        | some s =>
          obtain ⟨ts, ns, -⟩ := validateOptionalString_ok fields ("notes")
            (p ++ ".notes") s nois hno
          exact validateOptionalString_fix _ _ _ s ts ns g6
      unfold validateHeader headerToValue
      try dsimp only
      rw [e1, e2, e3, e4, e5, e6]
      simp
    case some.some.some.some invn isd cur dd =>
      obtain ⟨rfl, hi0, hs0, hd0, hc0, ht0, hn0, hlt⟩ := h
      obtain ⟨g1, g2, g3, g4, g5, g6⟩ :=
        headerFields_lookups
          { invoiceNumber := invn, issueDate := isd, dueDate := some dd,
            currency := cur, taxRate := tav, notes := nov }
      simp only [isRealIsoDate, Bool.and_eq_true, decide_eq_true_eq] at hiss
      obtain ⟨hsh, hpar⟩ := hiss
      have hdd2 := hdue dd rfl
      simp only [isRealIsoDate, Bool.and_eq_true, decide_eq_true_eq] at hdd2
      obtain ⟨hsh2, hpar2⟩ := hdd2
      obtain ⟨ti, ni⟩ := validateRequiredString_ok fields ("invoiceNumber")
        (p ++ ".invoiceNumber") invn (by rw [hin, hi0])
      have e1 := validateRequiredString_fix _ ("invoiceNumber")
        (p2 ++ ".invoiceNumber") invn ti ni g1
      have e2 := validateIsoDate_fix _ ("issueDate") (p2 ++ ".issueDate") true
        isd hsh hpar g2
      have e3 := validateIsoDate_fix _ ("dueDate") (p2 ++ ".dueDate") false
        dd hsh2 hpar2 g3
      have e4 := validateCurrency_roundtrip fields ("currency") (p ++ ".currency")
        cur (by rw [hcu, hc0]) _ (p2 ++ ".currency") g4
      have e5 : validateOptionalNumber
          (headerFields
            { invoiceNumber := invn, issueDate := isd, dueDate := some dd,
              currency := cur, taxRate := tav, notes := nov })
          ("taxRate") (p2 ++ ".taxRate") false (some 0) (some 1) = (tav, []) := by
        cases tav with
        | none => exact validateOptionalNumber_absent _ _ _ _ _ _ g5
        | some r =>
          exact validateOptionalNumber_roundtrip fields _ (p ++ ".taxRate")
            false (some 0) (some 1) r (by rw [hta, ht0]) _ _ g5
      have e6 : validateOptionalString
          (headerFields
            { invoiceNumber := invn, issueDate := isd, dueDate := some dd,
              currency := cur, taxRate := tav, notes := nov })
          ("notes") (p2 ++ ".notes") = (nov, []) := by
        cases nov with
        | none => exact validateOptionalString_absent _ _ _ g6
        | some s =>
          obtain ⟨ts, ns, -⟩ := validateOptionalString_ok fields ("notes")
            (p ++ ".notes") s nois hno
          exact validateOptionalString_fix _ _ _ s ts ns g6
      unfold validateHeader headerToValue
      try dsimp only
      rw [e1, e2, e3, e4, e5, e6]
      simp [hlt]

/-- A validated line-item list re-serializes and revalidates to itself
(the indexed loop, at any starting index). -/
theorem validateLineItemsAux_roundtrip (xs : List Value) (p : String) (i : ℕ)
    (items : List LineItem)
    (h : validateLineItemsAux p xs i = (some items, [])) :
    ∀ p2 i2, validateLineItemsAux p2 (items.map lineItemToValue) i2 =
      (some items, []) := by
  induction xs generalizing i items with
  | nil =>
    obtain ⟨h1, -⟩ : some [] = some items ∧ ([] : List Issue) = [] := by
      simpa [validateLineItemsAux] using h
    obtain rfl := Option.some_inj.mp h1
    intro p2 i2
    simp [validateLineItemsAux]
  | cons v rest ih =>
    rcases hv : validateLineItem v (p ++ "[" ++ natDecimal i ++ "]") with ⟨vv, vis⟩
    rcases hr : validateLineItemsAux p rest (i + 1) with ⟨rv, ris⟩
    unfold validateLineItemsAux at h
    rw [hv, hr] at h
    cases vv <;> cases rv <;> try simp at h
    case some.some item restItems =>
      obtain ⟨rfl, hv0, hr0⟩ := h
      intro p2 i2
      have e1 := validateLineItem_roundtrip v _ item (by rw [hv, hv0])
        (p2 ++ "[" ++ natDecimal i2 ++ "]")
      have e2 := ih (i + 1) restItems (by rw [hr, hr0]) p2 (i2 + 1)
      unfold validateLineItemsAux
      simp only [List.map_cons]
      rw [e1, e2]
      simp

/-- A validated line-item array re-serializes and revalidates to
itself. -/
theorem validateLineItems_roundtrip (v : Value) (p : String)
    (items : List LineItem)
    (h : validateLineItems v p = (some items, [])) (p2 : String) :
    validateLineItems (Value.vArr (items.map lineItemToValue)) p2 =
      (some items, []) := by
  cases v
  case vUndefined => simp [validateLineItems] at h
  case vNull => simp [validateLineItems] at h
  case vBool => simp [validateLineItems] at h
  case vNum => simp [validateLineItems] at h
  case vStr => simp [validateLineItems] at h
  case vObj => simp [validateLineItems] at h
  case vDate => simp [validateLineItems] at h
  case vArr xs =>
    cases xs with
    | nil => simp [validateLineItems, mkIssueHint] at h
    | cons x rest =>
      unfold validateLineItems at h
      have haux := h
      rcases hv : validateLineItem x (p ++ "[" ++ natDecimal 0 ++ "]") with ⟨vv, vis⟩
      unfold validateLineItemsAux at haux
      rw [hv] at haux
      rcases hr : validateLineItemsAux p rest (0 + 1) with ⟨rv, ris⟩
      rw [hr] at haux
      cases vv <;> cases rv <;> try simp at haux
      case some.some item restItems =>
        obtain ⟨hitems, -, -⟩ := haux
        rw [← hitems]
        have := validateLineItemsAux_roundtrip (x :: rest) p 0
          (item :: restItems) (by rw [← hitems] at h; exact h) p2 0
        unfold validateLineItems
        simpa using this

/-- C4 (amended): a successfully validated draft, re-serialized to raw
input, revalidates to an equal draft — provided the draft's date
strings are real four-digit-year ISO dates (`isRealIsoDate`). This
holds automatically whenever the raw date fields were strings; it can
fail only for native date values whose year needs five or more digits,
as the counterexample shows. -/
theorem validateDraft_roundtrip (input : Value) (d : InvoiceDraft)
    (h : validateDraft input = ValidationResult.ok d)
    (hiss : isRealIsoDate d.header.issueDate = true)
    (hdue : ∀ s, d.header.dueDate = some s → isRealIsoDate s = true) :
    validateDraft (draftToValue d) = ValidationResult.ok d := by
  cases input
  case vUndefined => simp [validateDraft] at h
  case vNull => simp [validateDraft] at h
  case vBool => simp [validateDraft] at h
  case vNum => simp [validateDraft] at h
  case vStr => simp [validateDraft] at h
  case vArr => simp [validateDraft] at h
  case vDate => simp [validateDraft] at h
  case vObj fields =>
    revert h
    unfold validateDraft
    try dsimp only
    split
    · split
      · intro h
        injection h with h2
        rename_i bb cc hh ll heqb heqc heqh heql hnil
        subst h2
        simp only [List.append_eq_nil] at hnil
        have hb : validateBusiness (getField fields ("business")) ("business") =
            (some bb, []) := by
          rw [Prod.ext_iff]
          exact ⟨heqb, by tauto⟩
        have hcc : validateClient (getField fields ("client")) ("client") =
            (some cc, []) := by
          rw [Prod.ext_iff]
          exact ⟨heqc, by tauto⟩
        have hhh : validateHeader (getField fields ("header")) ("header") =
            (some hh, []) := by
          rw [Prod.ext_iff]
          exact ⟨heqh, by tauto⟩
        have hll : validateLineItems (getField fields ("lineItems")) ("lineItems") =
            (some ll, []) := by
          rw [Prod.ext_iff]
          exact ⟨heql, by tauto⟩
        have rb := validateBusiness_roundtrip _ _ bb hb ("business")
        have rc := validateClient_roundtrip _ _ cc hcc ("client")
        have rh := validateHeader_roundtrip _ _ hh hhh (by simpa using hiss)
          (by simpa using hdue) ("header")
        have rli := validateLineItems_roundtrip _ _ ll hll ("lineItems")
        simp only [draftToValue]
        try dsimp only
        simp [getField, List.lookup, rb, rc, rh, rli]
      · intro h
        cases h
    · intro h
      cases h

/-- Witness for C4 (amended) at the sample input: the validated draft
re-serializes and revalidates to itself. -/
theorem validateDraft_roundtrip_witness :
    validateDraft (draftToValue sampleDraft) = ValidationResult.ok sampleDraft := by
  refine validateDraft_roundtrip sampleInput sampleDraft (by decide) (by decide) ?_
  intro s hs
  simp only [sampleDraft, Option.some_inj] at hs
  subst hs
  decide

/-- Raw input whose issueDate is a native date value in year 20000
(JavaScript `Date` objects extend to the year 275760). -/
def yearOverflowInput : Value :=
  Value.vObj
    [("business", Value.vObj
        [("name", Value.vStr ("Acme")), ("address", Value.vStr ("1 Road")),
         ("email", Value.vStr ("a@b.c"))]),
     ("client", Value.vObj
        [("name", Value.vStr ("Client")), ("address", Value.vStr ("2 Road"))]),
     ("header", Value.vObj
        [("invoiceNumber", Value.vStr ("INV-1")),
         ("issueDate", Value.vDate (some (20000, 1, 1))),
         ("currency", Value.vStr ("EUR"))]),
     ("lineItems", Value.vArr
        [Value.vObj
           [("description", Value.vStr ("Service")),
            ("quantity", Value.vNum (JsNum.fin 2)),
            ("unitPrice", Value.vNum (JsNum.fin 100))]])]

/-- The draft produced by validating `yearOverflowInput`: its issue
date has a five-digit year. -/
def yearOverflowDraft : InvoiceDraft :=
  { business :=
      { name := "Acme", address := "1 Road", email := "a@b.c",
        phone := none, logoUrl := none, taxId := none },
    client := { name := "Client", address := "2 Road", email := none },
    header :=
      { invoiceNumber := "INV-1", issueDate := "20000-01-01",
        dueDate := none, currency := "EUR", taxRate := none, notes := none },
    lineItems :=
      [{ description := "Service", quantity := JsNum.fin 2,
         unitPrice := JsNum.fin 100, unit := none }] }

/-- Counterexample to C4 as stated: validating an input whose issue
date is a native date value in year 20000 succeeds, but re-validating
the resulting draft fails, because the serialized date string no longer
matches `YYYY-MM-DD`. -/
theorem validateDraft_roundtrip_counterexample :
    validateDraft yearOverflowInput = ValidationResult.ok yearOverflowDraft ∧
    validateDraft (draftToValue yearOverflowDraft) =
      ValidationResult.err
        [mkIssueHint IssueCode.INVALID_FORMAT ("header.issueDate")
           ("issueDate must be in YYYY-MM-DD format") ("Example: 2025-01-15")] := by
  constructor
  · decide
  · decide
